import Mathlib

/-!
# farm2mandi-backend: the inventory-consistent order lifecycle

A shallow embedding of `src/models/Order.js`, `src/models/Product.js`,
`src/controllers/orderController.js` and `src/controllers/productController.js`.

Modelling conventions.

* A MongoDB collection is a list of documents in insertion order; an `ObjectId`
  is a natural number and fresh ids come from a counter kept in the store.
* JavaScript numbers are exact rationals (`ℚ`); `Date.now()` is an argument
  `now` of every operation.
* A controller is a function from the store, the authenticated user and the
  request to the new store and the JSON response (`res.status(c).json(..)`).
  An exception thrown by Mongoose (a `ValidationError`) is an `Except.error`,
  and the controller's `catch` block turns it into the 500 response.
* `doc.save()` validates the whole document against the schema, runs the
  `pre('save')` hook (which stamps `updatedAt`) and writes the modified paths
  to the stored document that has the same `_id`.
* Only the schema paths that carry a validator or that the controllers read or
  write are kept; the descriptive paths of a product (name, category,
  description, unit, images, location, rating, views) and the free-form paths
  of an order (deliveryAddress, notes) are never read by the order lifecycle.
* The store holds every document as a read through Mongoose returns it, with the schema
  defaults filled in for paths that are not stored.
* The body of `PUT /api/products/:id` reaches Mongoose unchanged: besides paths to set
  it may carry the update operators `$inc`, `$mul`, `$min` and `$max` on the numeric
  paths, which update validators do not check. The body of `PUT /api/orders/:id/status`
  may lack `status`.
* Arithmetic is exact. The statements about the value of a stock after an order or a
  cancellation (C1, C8, C15) are made for natural-number quantities up to 2^53, where
  IEEE doubles subtract and add without rounding, so that the exact result is the
  number the code stores.
* The controllers are first modelled on a storage layer that accepts every write;
  `createOrderWith` and `cancelOrderWith` are the same controllers on a storage layer
  that may reject a write, and agree with them when no write is rejected.
-/

namespace Farm2Mandi

/-- Identifier of a stored document or of a user (`mongoose.Schema.Types.ObjectId`). -/
abbrev ObjectId := Nat

/-- Document of `productSchema` (src/models/Product.js). -/
structure Product where
  id : ObjectId
  farmer : ObjectId
  price : ℚ
  quantity : ℚ
  status : String
  createdAt : Nat
  updatedAt : Nat
  deriving DecidableEq, Repr

/-- Document of `orderSchema` (src/models/Order.js). -/
structure Order where
  id : ObjectId
  buyer : ObjectId
  farmer : ObjectId
  product : ObjectId
  quantity : ℚ
  price : ℚ
  totalAmount : ℚ
  status : String
  paymentMethod : String
  paymentStatus : String
  createdAt : Nat
  updatedAt : Nat
  deliveredAt : Option Nat
  deriving DecidableEq, Repr

/-- The two collections and the source of fresh `_id` values. -/
structure Store where
  products : List Product
  orders : List Order
  nextId : ObjectId
  deriving DecidableEq, Repr

/-- The JSON body sent by `res.status(status).json(..)`. -/
structure Response (α : Type) where
  status : Nat
  success : Bool
  message : String
  data : Option α
  deriving DecidableEq, Repr

/-- Body of `POST /api/orders` as read by `createOrder`. -/
structure OrderBody where
  product : ObjectId
  quantity : ℚ
  paymentMethod : String
  deriving DecidableEq, Repr

/-- The `enum` of `orderSchema.status`. -/
def orderStatusEnum : List String :=
  ["pending", "accepted", "rejected", "delivered", "cancelled"]

/-- The `enum` of `orderSchema.paymentMethod`. -/
def paymentMethodEnum : List String := ["cash", "online", "upi"]

/-- The `enum` of `orderSchema.paymentStatus`. -/
def paymentStatusEnum : List String := ["pending", "completed", "failed"]

/-- The `enum` of `productSchema.status`. -/
def productStatusEnum : List String := ["active", "inactive", "sold"]

/-- Validators of `orderSchema`: `quantity` min 1, `price` min 0 and the three enums. -/
def Order.validate (o : Order) : Bool :=
  decide (1 ≤ o.quantity) && decide (0 ≤ o.price) &&
    decide (o.status ∈ orderStatusEnum) &&
    decide (o.paymentMethod ∈ paymentMethodEnum) &&
    decide (o.paymentStatus ∈ paymentStatusEnum)

/-- Validators of `productSchema`: `price` min 0, `quantity` min 0 and the status enum. -/
def Product.validate (p : Product) : Bool :=
  decide (0 ≤ p.price) && decide (0 ≤ p.quantity) &&
    decide (p.status ∈ productStatusEnum)

/-- Mongoose `Product.findById(id)`: the stored product with that `_id`, if any. -/
def Product.findById (s : Store) (id : ObjectId) : Option Product :=
  s.products.find? (fun p => decide (p.id = id))

/-- Mongoose `Order.findById(id)`: the stored order with that `_id`, if any. -/
def Order.findById (s : Store) (id : ObjectId) : Option Order :=
  s.orders.find? (fun o => decide (o.id = id))

/-- The write of `doc.save()` on one stored document: Mongoose sends a `$set` of the
paths whose value in the local copy `doc` differs from the value that was loaded
(`orig`); every other path of the stored document `p` is left as it is. -/
def Product.patch (orig doc p : Product) : Product :=
  { id := p.id,
    farmer := if doc.farmer = orig.farmer then p.farmer else doc.farmer,
    price := if doc.price = orig.price then p.price else doc.price,
    quantity := if doc.quantity = orig.quantity then p.quantity else doc.quantity,
    status := if doc.status = orig.status then p.status else doc.status,
    createdAt := if doc.createdAt = orig.createdAt then p.createdAt else doc.createdAt,
    updatedAt := if doc.updatedAt = orig.updatedAt then p.updatedAt else doc.updatedAt }

/-- The write of `order.save()` on one stored document (modified paths only). -/
def Order.patch (orig doc o : Order) : Order :=
  { id := o.id,
    buyer := if doc.buyer = orig.buyer then o.buyer else doc.buyer,
    farmer := if doc.farmer = orig.farmer then o.farmer else doc.farmer,
    product := if doc.product = orig.product then o.product else doc.product,
    quantity := if doc.quantity = orig.quantity then o.quantity else doc.quantity,
    price := if doc.price = orig.price then o.price else doc.price,
    totalAmount := if doc.totalAmount = orig.totalAmount then o.totalAmount else doc.totalAmount,
    status := if doc.status = orig.status then o.status else doc.status,
    paymentMethod :=
      if doc.paymentMethod = orig.paymentMethod then o.paymentMethod else doc.paymentMethod,
    paymentStatus :=
      if doc.paymentStatus = orig.paymentStatus then o.paymentStatus else doc.paymentStatus,
    createdAt := if doc.createdAt = orig.createdAt then o.createdAt else doc.createdAt,
    updatedAt := if doc.updatedAt = orig.updatedAt then o.updatedAt else doc.updatedAt,
    deliveredAt := if doc.deliveredAt = orig.deliveredAt then o.deliveredAt else doc.deliveredAt }

/-- Mongoose `productData.save()` for a document loaded as `orig` and changed locally to `doc`:
validate the whole local document, run the `pre('save')` hook (`updatedAt = Date.now()`),
write the modified paths to the stored document with the same `_id`. Returns the
new store and the local document. -/
def Product.save (s : Store) (orig doc : Product) (now : Nat) : Except String (Store × Product) :=
  if doc.validate then
    let doc1 := { doc with updatedAt := now }
    .ok ({ s with products :=
            s.products.map (fun p => if p.id = doc1.id then Product.patch orig doc1 p else p) },
         doc1)
  else
    .error "Product validation failed"

/-- Mongoose `order.save()` for a document loaded as `orig` and changed locally to `doc`. -/
def Order.save (s : Store) (orig doc : Order) (now : Nat) : Except String (Store × Order) :=
  if doc.validate then
    let doc1 := { doc with updatedAt := now }
    .ok ({ s with orders :=
            s.orders.map (fun o => if o.id = doc1.id then Order.patch orig doc1 o else o) },
         doc1)
  else
    .error "Order validation failed"

/-- Mongoose `Order.create({ buyer, farmer, product, quantity, price, totalAmount, paymentMethod })`:
the schema defaults give `status`, `paymentStatus`, `createdAt`; the document is
validated and inserted. -/
def Order.create (s : Store) (buyer farmer product : ObjectId) (quantity price totalAmount : ℚ)
    (paymentMethod : String) (now : Nat) : Except String (Store × Order) :=
  let doc : Order :=
    { id := s.nextId, buyer := buyer, farmer := farmer, product := product,
      quantity := quantity, price := price, totalAmount := totalAmount,
      status := "pending", paymentMethod := paymentMethod, paymentStatus := "pending",
      createdAt := now, updatedAt := now, deliveredAt := none }
  if doc.validate then
    .ok ({ s with orders := s.orders ++ [doc], nextId := s.nextId + 1 }, doc)
  else
    .error "Order validation failed"

/-- The response of every `catch (error)` block. -/
def serverError {α : Type} : Response α :=
  { status := 500, success := false, message := "Server error", data := none }

/-- Controller `createOrder` (src/controllers/orderController.js, lines 7-65). -/
def createOrder (s : Store) (user : ObjectId) (body : OrderBody) (now : Nat) :
    Store × Response Order :=
  match Product.findById s body.product with
  | none =>
    (s, { status := 404, success := false, message := "Product not found", data := none })
  | some productData =>
    if productData.quantity < body.quantity then
      (s, { status := 400, success := false, message := "Insufficient quantity available",
            data := none })
    else
      let totalAmount := productData.price * body.quantity
      match Order.create s user productData.farmer body.product body.quantity
          productData.price totalAmount body.paymentMethod now with
      | .error _ => (s, serverError)
      | .ok (s1, order) =>
        let productData1 := { productData with quantity := productData.quantity - body.quantity }
        let productData2 :=
          if productData1.quantity = 0 then { productData1 with status := "sold" }
          else productData1
        match Product.save s1 productData productData2 now with
        | .error _ => (s1, serverError)
        | .ok (s2, _) =>
          (s2, { status := 201, success := true, message := "Order created successfully",
                 data := some order })

/-- Controller `updateOrderStatus` (src/controllers/orderController.js, lines 169-211);
`id` is `req.params.id` and `status` is `req.body.status`, which is `none` when the
body has no `status` (the route validates nothing). Assigning `undefined` unsets the
path: the enum validator has nothing to check, and every later read of the order shows
the schema default `pending`, which is what the store keeps (and what `data` shows here,
where the JSON of the real response has no `status` at all). -/
def updateOrderStatus (s : Store) (user id : ObjectId) (status : Option String) (now : Nat) :
    Store × Response Order :=
  match Order.findById s id with
  | none =>
    (s, { status := 404, success := false, message := "Order not found", data := none })
  | some order =>
    if order.farmer ≠ user then
      (s, { status := 401, success := false, message := "Not authorized to update this order",
            data := none })
    else
      let order1 := { order with status := status.getD "pending" }
      let order2 :=
        if status = some "delivered" then
          { order1 with deliveredAt := some now, paymentStatus := "completed" }
        else order1
      match Order.save s order order2 now with
      | .error _ => (s, serverError)
      | .ok (s1, order3) =>
        (s1, { status := 200, success := true, message := "Order status updated successfully",
               data := some order3 })

/-- Controller `cancelOrder` (src/controllers/orderController.js, lines 216-267). -/
def cancelOrder (s : Store) (user id : ObjectId) (now : Nat) : Store × Response Order :=
  match Order.findById s id with
  | none =>
    (s, { status := 404, success := false, message := "Order not found", data := none })
  | some order =>
    if order.buyer ≠ user then
      (s, { status := 401, success := false, message := "Not authorized to cancel this order",
            data := none })
    else if order.status ≠ "pending" then
      (s, { status := 400, success := false, message := "Cannot cancel order in current status",
            data := none })
    else
      match Order.save s order { order with status := "cancelled" } now with
      | .error _ => (s, serverError)
      | .ok (s1, order1) =>
        match Product.findById s1 order1.product with
        | none =>
          (s1, { status := 200, success := true, message := "Order cancelled successfully",
                 data := some order1 })
        | some product =>
          let product1 :=
            { product with quantity := product.quantity + order1.quantity, status := "active" }
          match Product.save s1 product product1 now with
          | .error _ => (s1, serverError)
          | .ok (s2, _) =>
            (s2, { status := 200, success := true, message := "Order cancelled successfully",
                   data := some order1 })

/-- The paths of the body of `POST /api/products` that `createProduct` passes on and
that the order lifecycle reads. -/
structure ProductBody where
  price : ℚ
  quantity : ℚ
  deriving DecidableEq, Repr

/-- Mongoose `Product.create({ farmer, price, quantity, .. })`: `status` takes its default. -/
def Product.create (s : Store) (farmer : ObjectId) (price quantity : ℚ) (now : Nat) :
    Except String (Store × Product) :=
  let doc : Product :=
    { id := s.nextId, farmer := farmer, price := price, quantity := quantity,
      status := "active", createdAt := now, updatedAt := now }
  if doc.validate then
    .ok ({ s with products := s.products ++ [doc], nextId := s.nextId + 1 }, doc)
  else
    .error "Product validation failed"

/-- Controller `createProduct` (src/controllers/productController.js, lines 93-135). -/
def createProduct (s : Store) (user : ObjectId) (body : ProductBody) (now : Nat) :
    Store × Response Product :=
  match Product.create s user body.price body.quantity now with
  | .error _ => (s, serverError)
  | .ok (s1, product) =>
    (s1, { status := 201, success := true, message := "Product created successfully",
           data := some product })

/-- An update operator of MongoDB on a numeric path: `{ $inc: { path: x } }`,
`$mul`, `$min` or `$max`. -/
inductive NumericOp where
  | inc (x : ℚ)
  | mul (x : ℚ)
  | min (x : ℚ)
  | max (x : ℚ)
  deriving DecidableEq, Repr

/-- The value an update operator leaves in a path that holds `v`. -/
def NumericOp.apply : NumericOp → ℚ → ℚ
  | .inc x, v => v + x
  | .mul x, v => v * x
  | .min x, v => if x < v then x else v
  | .max x, v => if v < x then x else v

/-- Body of `PUT /api/products/:id`, which `updateProduct` hands to Mongoose as it is.
The first six fields are the paths to set (top-level paths and `$set`); `none` is an
absent path. `priceOp` and `quantityOp` are an update operator on `price` and on
`quantity`. -/
structure ProductUpdate where
  farmer : Option ObjectId
  price : Option ℚ
  quantity : Option ℚ
  status : Option String
  createdAt : Option Nat
  updatedAt : Option Nat
  priceOp : Option NumericOp
  quantityOp : Option NumericOp
  deriving DecidableEq, Repr

/-- Update validators (`runValidators: true`): each path that is set is validated. They
do not run on `$inc`, `$mul`, `$min` and `$max`. -/
def ProductUpdate.validate (u : ProductUpdate) : Bool :=
  u.price.all (fun x => decide (0 ≤ x)) && u.quantity.all (fun x => decide (0 ≤ x)) &&
    u.status.all (fun x => decide (x ∈ productStatusEnum))

/-- MongoDB refuses an update that names one path both in `$set` and in another
operator. -/
def ProductUpdate.conflict (u : ProductUpdate) : Bool :=
  (u.price.isSome && u.priceOp.isSome) || (u.quantity.isSome && u.quantityOp.isSome)

/-- The update of the body on a stored product. -/
def ProductUpdate.apply (u : ProductUpdate) (p : Product) : Product :=
  { id := p.id,
    farmer := u.farmer.getD p.farmer,
    price :=
      match u.priceOp with
      | some op => op.apply p.price
      | none => u.price.getD p.price,
    quantity :=
      match u.quantityOp with
      | some op => op.apply p.quantity
      | none => u.quantity.getD p.quantity,
    status := u.status.getD p.status,
    createdAt := u.createdAt.getD p.createdAt,
    updatedAt := u.updatedAt.getD p.updatedAt }

/-- Mongoose `Product.findByIdAndUpdate(id, body, { new: true, runValidators: true })`: no
`save` hook runs. -/
def Product.findByIdAndUpdate (s : Store) (id : ObjectId) (u : ProductUpdate) :
    Except String (Store × Option Product) :=
  if u.validate && !u.conflict then
    let s1 := { s with products := s.products.map (fun p => if p.id = id then u.apply p else p) }
    .ok (s1, Product.findById s1 id)
  else
    .error "Update failed"

/-- Controller `updateProduct` (src/controllers/productController.js, lines 140-177). -/
def updateProduct (s : Store) (user id : ObjectId) (body : ProductUpdate) :
    Store × Response Product :=
  match Product.findById s id with
  | none =>
    (s, { status := 404, success := false, message := "Product not found", data := none })
  | some product =>
    if product.farmer ≠ user then
      (s, { status := 401, success := false, message := "Not authorized to update this product",
            data := none })
    else
      match Product.findByIdAndUpdate s id body with
      | .error _ => (s, serverError)
      | .ok (s1, product1) =>
        (s1, { status := 200, success := true, message := "Product updated successfully",
               data := product1 })

/-- One call of a controller, with its authenticated user and its arguments. -/
inductive Request where
  | createProduct (user : ObjectId) (body : ProductBody) (now : Nat)
  | updateProduct (user : ObjectId) (id : ObjectId) (body : ProductUpdate)
  | createOrder (user : ObjectId) (body : OrderBody) (now : Nat)
  | updateOrderStatus (user : ObjectId) (id : ObjectId) (status : Option String) (now : Nat)
  | cancelOrder (user : ObjectId) (id : ObjectId) (now : Nat)
  deriving DecidableEq, Repr

/-- The request applies no update operator to the `quantity` path of a product. -/
def Request.noQuantityOperator : Request → Bool
  | .updateProduct _ _ body => body.quantityOp.isNone
  | _ => true

/-- Serve one request: the new store and the HTTP status of the response. -/
def handle (s : Store) : Request → Store × Nat
  | .createProduct user body now =>
    ((createProduct s user body now).1, (createProduct s user body now).2.status)
  | .updateProduct user id body =>
    ((updateProduct s user id body).1, (updateProduct s user id body).2.status)
  | .createOrder user body now =>
    ((createOrder s user body now).1, (createOrder s user body now).2.status)
  | .updateOrderStatus user id status now =>
    ((updateOrderStatus s user id status now).1, (updateOrderStatus s user id status now).2.status)
  | .cancelOrder user id now =>
    ((cancelOrder s user id now).1, (cancelOrder s user id now).2.status)

/-- Serve a sequence of requests one at a time. -/
def runAll (s : Store) : List Request → Store
  | [] => s
  | r :: rs => runAll (handle s r).1 rs

/-- The store before any request. -/
def emptyStore : Store := { products := [], orders := [], nextId := 0 }

/-! ### Sample stores and runs -/

/-- The end-to-end product of the spec: stock 100, price 10, owned by farmer 1. -/
def demoStore : Store :=
  { products := [{ id := 0, farmer := 1, price := 10, quantity := 100, status := "active",
                   createdAt := 0, updatedAt := 0 }],
    orders := [], nextId := 1 }


/-- Number of `cancelOrder` calls on order `id` answered 200 while `rs` is served from `s`. -/
def cancelSuccesses (id : ObjectId) (s : Store) : List Request → Nat
  | [] => 0
  | r :: rs =>
    (match r with
      | .cancelOrder _ i _ => if i = id ∧ (handle s r).2 = 200 then 1 else 0
      | _ => 0) + cancelSuccesses id (handle s r).1 rs

/-- The transition table of the spec (section 4.2) for `setStatus`, read as a relation
between the current and the requested status. -/
def specLegalTransition (current requested : String) : Bool :=
  (current == "pending" && requested == "accepted") ||
  (current == "pending" && requested == "rejected") ||
  (current == "accepted" && requested == "rejected") ||
  (current == "accepted" && requested == "delivered")

/-! ### Two `createOrder` requests in flight

`createOrder` suspends at its three `await`s (`Product.findById`, `Order.create`,
`productData.save`); the code between two `await`s runs without interruption. A request
in flight is therefore a small state machine whose steps are the three storage
round-trips, each taken together with the synchronous code that follows it. -/

/-- Where an in-flight `createOrder` request stands, with its local variables. -/
inductive CreateOrderTask where
  | start
  | found (productData : Product)
  | created (productData productData2 : Product) (order : Order)
  | finished (res : Response Order)
  deriving DecidableEq, Repr

/-- The arguments of one `createOrder` request. -/
structure CreateOrderCall where
  user : ObjectId
  body : OrderBody
  now : Nat
  deriving DecidableEq, Repr

/-- One storage round-trip of an in-flight `createOrder` request (lines 12-27, 29-49
and 50-56 of src/controllers/orderController.js). -/
def CreateOrderTask.step (c : CreateOrderCall) (s : Store) :
    CreateOrderTask → Store × CreateOrderTask
  | .start =>
    match Product.findById s c.body.product with
    | none =>
      (s, .finished
        { status := 404, success := false, message := "Product not found", data := none })
    | some productData =>
      if productData.quantity < c.body.quantity then
        (s, .finished
          { status := 400, success := false, message := "Insufficient quantity available",
            data := none })
      else (s, .found productData)
  | .found productData =>
    let totalAmount := productData.price * c.body.quantity
    match Order.create s c.user productData.farmer c.body.product c.body.quantity
        productData.price totalAmount c.body.paymentMethod c.now with
    | .error _ => (s, .finished serverError)
    | .ok (s1, order) =>
      let productData1 :=
        { productData with quantity := productData.quantity - c.body.quantity }
      let productData2 :=
        if productData1.quantity = 0 then { productData1 with status := "sold" }
        else productData1
      (s1, .created productData productData2 order)
  | .created productData productData2 order =>
    match Product.save s productData productData2 c.now with
    | .error _ => (s, .finished serverError)
    | .ok (s2, _) =>
      (s2, .finished
        { status := 201, success := true, message := "Order created successfully",
          data := some order })
  | .finished res => (s, .finished res)

/-- The store and two `createOrder` requests in flight. -/
structure Race where
  store : Store
  first : CreateOrderTask
  second : CreateOrderTask
  deriving DecidableEq, Repr

/-- The scheduler lets the first (`false`) or the second (`true`) request take its next
storage round-trip. -/
def Race.step (a b : CreateOrderCall) (r : Race) (pick : Bool) : Race :=
  if pick then
    { store := (CreateOrderTask.step b r.store r.second).1, first := r.first,
      second := (CreateOrderTask.step b r.store r.second).2 }
  else
    { store := (CreateOrderTask.step a r.store r.first).1,
      first := (CreateOrderTask.step a r.store r.first).2, second := r.second }

/-- Run an interleaving of the two requests, given as the list of scheduler picks. -/
def Race.run (a b : CreateOrderCall) (r : Race) (schedule : List Bool) : Race :=
  schedule.foldl (Race.step a b) r

/-- A product with stock 10 and price 5 owned by farmer 1: the store of the spec's
concurrency example. -/
def raceStore : Store :=
  { products := [{ id := 0, farmer := 1, price := 5, quantity := 10, status := "active",
                   createdAt := 0, updatedAt := 0 }],
    orders := [], nextId := 1 }

/-- Every stored product has a stock of at least 0 and every stored order a quantity of at
least 1: the `min` validators of the two schemas, as a property of the store. -/
def Store.quantitiesValid (s : Store) : Prop :=
  (∀ p ∈ s.products, 0 ≤ p.quantity) ∧ (∀ o ∈ s.orders, 1 ≤ o.quantity)

/-- A run with a negative, a fractional and a stock-emptying order on one product, and an
attempt to set the stock to -5, which the update validator refuses. -/
def mixedRequests : List Request :=
  [.createProduct 1 ⟨10, 100⟩ 0, .createOrder 7 ⟨0, -5, "cash"⟩ 1,
   .createOrder 7 ⟨0, 3 / 2, "cash"⟩ 2, .createOrder 8 ⟨0, 197 / 2, "upi"⟩ 3,
   .updateProduct 1 0 ⟨none, none, some (-5), none, none, none, none, none⟩]

/-- Farmer 1 lists 100 units at price 10, buyer 7 orders 30 (stock 70), and the farmer
sends `{ "$inc": { "quantity": -1000 } }` to `PUT /api/products/0`. -/
def overdrawRequests : List Request :=
  [.createProduct 1 ⟨10, 100⟩ 0, .createOrder 7 ⟨0, 30, "cash"⟩ 1,
   .updateProduct 1 0 ⟨none, none, none, none, none, none, none, some (.inc (-1000))⟩]

/-- The product left by `mixedRequests`: sold out. -/
def soldOutProduct : Product :=
  { id := 0, farmer := 1, price := 10, quantity := 0, status := "sold", createdAt := 0,
    updatedAt := 3 }

/-- The paths of an order that are given at creation and that no controller assigns
afterwards: `_id`, buyer, farmer, product, quantity, unit price and totalAmount. -/
def Order.fixedPart (o : Order) : ObjectId × ObjectId × ObjectId × ObjectId × ℚ × ℚ × ℚ :=
  (o.id, o.buyer, o.farmer, o.product, o.quantity, o.price, o.totalAmount)

/-- Every order of `s` is still stored in `s1`, at the same place of the collection and
with the same fixed part. -/
def Store.keepsOrders (s s1 : Store) : Prop :=
  ∀ (k : Nat) (o : Order), s.orders[k]? = some o →
    ∃ o1, s1.orders[k]? = some o1 ∧ o1.fixedPart = o.fixedPart

/-- Later requests on the end-to-end store: the farmer raises the price to 25, accepts
order 1, and the buyer then tries to cancel it. -/
def laterRequests : List Request :=
  [.updateProduct 1 0 ⟨none, some 25, none, none, none, none, none, none⟩,
   .updateOrderStatus 1 1 (some "accepted") 6, .cancelOrder 7 1 7]

/-- A store whose order 1 (30 units of product 0, buyer 7, farmer 1) has been delivered. -/
def deliveredStore : Store :=
  { products := [{ id := 0, farmer := 1, price := 10, quantity := 70, status := "active",
                   createdAt := 0, updatedAt := 5 }],
    orders := [{ id := 1, buyer := 7, farmer := 1, product := 0, quantity := 30, price := 10,
                 totalAmount := 300, status := "delivered", paymentMethod := "cash",
                 paymentStatus := "completed", createdAt := 5, updatedAt := 9,
                 deliveredAt := some 9 }],
    nextId := 2 }

/-- The order with `_id` `id` is stored and its status is not `pending`. -/
def Store.closedOrder (s : Store) (id : ObjectId) : Prop :=
  ∃ o, Order.findById s id = some o ∧ o.status ≠ "pending"

/-- Farmer 1 lists 100 units, buyer 7 orders 30 (order 1) and cancels, the farmer sets
the cancelled order back to `pending`, and the buyer cancels again. -/
def reopenRequests : List Request :=
  [.createProduct 1 ⟨10, 100⟩ 0, .createOrder 7 ⟨0, 30, "cash"⟩ 1, .cancelOrder 7 1 2,
   .updateOrderStatus 1 1 (some "pending") 3, .cancelOrder 7 1 4]

/-- Farmer 1 lists 100 units at price 10 and then sends
`{ "$inc": { "price": -20 } }` to `PUT /api/products/0`: the price becomes -10. -/
def negativePriceRequests : List Request :=
  [.createProduct 1 ⟨10, 100⟩ 0,
   .updateProduct 1 0 ⟨none, none, none, none, none, none, some (.inc (-20)), none⟩]

/-- The store reached by `negativePriceRequests`: product 0 with stock 100 and price -10. -/
def negativePriceStore : Store := runAll emptyStore negativePriceRequests

/-- Farmer 1 lists 100 units at price 10, buyer 7 orders 30 (order 1, stock 70), and the
farmer then sends `{ "$inc": { "price": -20 } }`. -/
def negativePriceAfterOrderRequests : List Request :=
  [.createProduct 1 ⟨10, 100⟩ 0, .createOrder 7 ⟨0, 30, "cash"⟩ 1,
   .updateProduct 1 0 ⟨none, none, none, none, none, none, some (.inc (-20)), none⟩]

/-- The store reached by `negativePriceAfterOrderRequests`: order 1 is pending, product 0
has stock 70 and price -10. -/
def negativePricePendingStore : Store := runAll emptyStore negativePriceAfterOrderRequests

/-- The same run, except that the farmer's `PUT /api/orders/1/status` has a body without
`status`. -/
def omitStatusRequests : List Request :=
  [.createProduct 1 ⟨10, 100⟩ 0, .createOrder 7 ⟨0, 30, "cash"⟩ 1, .cancelOrder 7 1 2,
   .updateOrderStatus 1 1 none 3, .cancelOrder 7 1 4]

/-- The same run, except that the farmer asks for `rejected` instead of `pending`. -/
def rejectRequests : List Request :=
  [.createProduct 1 ⟨10, 100⟩ 0, .createOrder 7 ⟨0, 30, "cash"⟩ 1, .cancelOrder 7 1 2,
   .updateOrderStatus 1 1 (some "rejected") 3, .cancelOrder 7 1 4]

/-- The end-to-end store after buyer 7 has ordered 30 units: stock 70, order 1 pending. -/
def pendingStore : Store :=
  { products := [{ id := 0, farmer := 1, price := 10, quantity := 70, status := "active",
                   createdAt := 0, updatedAt := 5 }],
    orders := [{ id := 1, buyer := 7, farmer := 1, product := 0, quantity := 30, price := 10,
                 totalAmount := 300, status := "pending", paymentMethod := "cash",
                 paymentStatus := "pending", createdAt := 5, updatedAt := 5,
                 deliveredAt := none }],
    nextId := 2 }

/-! ### Storage failures

Every `await` on a write sits inside the controller's `try` block: when the storage layer
rejects a write, nothing is written, the promise rejects and control passes to `catch`. -/

/-- Which of the writes of one request the storage layer rejects. -/
structure Faults where
  orderWrite : Bool
  productWrite : Bool
  deriving DecidableEq, Repr

/-- Mongoose `Order.create(..)` on a storage layer that may reject the insert. -/
def Order.createWith (fail : Bool) (s : Store) (buyer farmer product : ObjectId)
    (quantity price totalAmount : ℚ) (paymentMethod : String) (now : Nat) :
    Except String (Store × Order) :=
  if fail then .error "storage error"
  else Order.create s buyer farmer product quantity price totalAmount paymentMethod now

/-- Mongoose `order.save()` on a storage layer that may reject the write. -/
def Order.saveWith (fail : Bool) (s : Store) (orig doc : Order) (now : Nat) :
    Except String (Store × Order) :=
  if fail then .error "storage error" else Order.save s orig doc now

/-- Mongoose `product.save()` on a storage layer that may reject the write. -/
def Product.saveWith (fail : Bool) (s : Store) (orig doc : Product) (now : Nat) :
    Except String (Store × Product) :=
  if fail then .error "storage error" else Product.save s orig doc now

/-- Controller `createOrder` (src/controllers/orderController.js, lines 7-65) on a
storage layer that rejects the writes named by `f`. -/
def createOrderWith (f : Faults) (s : Store) (user : ObjectId) (body : OrderBody) (now : Nat) :
    Store × Response Order :=
  match Product.findById s body.product with
  | none =>
    (s, { status := 404, success := false, message := "Product not found", data := none })
  | some productData =>
    if productData.quantity < body.quantity then
      (s, { status := 400, success := false, message := "Insufficient quantity available",
            data := none })
    else
      let totalAmount := productData.price * body.quantity
      match Order.createWith f.orderWrite s user productData.farmer body.product body.quantity
          productData.price totalAmount body.paymentMethod now with
      | .error _ => (s, serverError)
      | .ok (s1, order) =>
        let productData1 := { productData with quantity := productData.quantity - body.quantity }
        let productData2 :=
          if productData1.quantity = 0 then { productData1 with status := "sold" }
          else productData1
        match Product.saveWith f.productWrite s1 productData productData2 now with
        | .error _ => (s1, serverError)
        | .ok (s2, _) =>
          (s2, { status := 201, success := true, message := "Order created successfully",
                 data := some order })

/-- Controller `cancelOrder` (src/controllers/orderController.js, lines 216-267) on a
storage layer that rejects the writes named by `f`. -/
def cancelOrderWith (f : Faults) (s : Store) (user id : ObjectId) (now : Nat) :
    Store × Response Order :=
  match Order.findById s id with
  | none =>
    (s, { status := 404, success := false, message := "Order not found", data := none })
  | some order =>
    if order.buyer ≠ user then
      (s, { status := 401, success := false, message := "Not authorized to cancel this order",
            data := none })
    else if order.status ≠ "pending" then
      (s, { status := 400, success := false, message := "Cannot cancel order in current status",
            data := none })
    else
      match Order.saveWith f.orderWrite s order { order with status := "cancelled" } now with
      | .error _ => (s, serverError)
      | .ok (s1, order1) =>
        match Product.findById s1 order1.product with
        | none =>
          (s1, { status := 200, success := true, message := "Order cancelled successfully",
                 data := some order1 })
        | some product =>
          let product1 :=
            { product with quantity := product.quantity + order1.quantity, status := "active" }
          match Product.saveWith f.productWrite s1 product product1 now with
          | .error _ => (s1, serverError)
          | .ok (s2, _) =>
            (s2, { status := 200, success := true, message := "Order cancelled successfully",
                   data := some order1 })

/-! ### Farmer dashboard -/

/-- The `data` object of the response of `getFarmerStats`. -/
structure FarmerStats where
  activeListings : Nat
  totalSales : ℚ
  pendingOrders : Nat
  recentActivity : List Order
  deriving DecidableEq, Repr

/-- Controller `getFarmerStats` (src/controllers/productController.js, lines 244-300).
The two `countDocuments` are lengths of filtered collections; the aggregation pipeline
(`$match`, then `$group` with `_id: null`) yields one group holding the sum when some
order matches and no group otherwise; `sort({ createdAt: -1 }).limit(10)` is a sort by
descending `createdAt` followed by `take 10`. The `populate` calls only replace
references by names and are left out; the response carries no `message`. -/
def getFarmerStats (s : Store) (user : ObjectId) : Store × Response FarmerStats :=
  let activeListings :=
    (s.products.filter (fun p => decide (p.farmer = user) && decide (p.status = "active"))).length
  let pendingOrders :=
    (s.orders.filter (fun o => decide (o.farmer = user) && decide (o.status = "pending"))).length
  let matched :=
    s.orders.filter (fun o =>
      decide (o.farmer = user) && decide (o.status ∈ ["delivered", "accepted"]))
  let salesData : List ℚ :=
    if matched.isEmpty then [] else [(matched.map (fun o => o.totalAmount)).sum]
  let totalSales := if salesData.length > 0 then salesData.headD 0 else 0
  let recentActivity :=
    ((s.orders.filter (fun o => decide (o.farmer = user))).mergeSort
      (fun a b => decide (b.createdAt ≤ a.createdAt))).take 10
  (s, { status := 200, success := true, message := "",
        data := some { activeListings := activeListings, totalSales := totalSales,
                       pendingOrders := pendingOrders, recentActivity := recentActivity } })

/-! ### More sample stores -/

/-- The store `pendingStore` after the farmer has deleted product 0: order 1 is pending
and its product no longer exists. -/
def orphanStore : Store :=
  { products := [],
    orders := [{ id := 1, buyer := 7, farmer := 1, product := 0, quantity := 30, price := 10,
                 totalAmount := 300, status := "pending", paymentMethod := "cash",
                 paymentStatus := "pending", createdAt := 5, updatedAt := 5,
                 deliveredAt := none }],
    nextId := 2 }

/-- The store `pendingStore` after the farmer has set product 0 to `inactive` with
`updateProduct`. -/
def inactiveStore : Store :=
  (updateProduct pendingStore 1 0 ⟨none, none, none, some "inactive", none, none, none, none⟩).1

/-- A store with one active and one sold product of farmer 1 and twelve of their orders,
order k created at time k; every third order is delivered, the others are pending.
Farmer 2 has one active product and one accepted order. -/
def dashboardStore : Store :=
  { products :=
      [{ id := 100, farmer := 1, price := 10, quantity := 40, status := "active",
         createdAt := 0, updatedAt := 0 },
       { id := 101, farmer := 1, price := 3, quantity := 0, status := "sold",
         createdAt := 0, updatedAt := 0 },
       { id := 102, farmer := 2, price := 7, quantity := 5, status := "active",
         createdAt := 0, updatedAt := 0 }],
    orders :=
      (List.range 12).map (fun k =>
        { id := k, buyer := 7, farmer := 1, product := 100, quantity := 5, price := 10,
          totalAmount := 50, status := if k % 3 = 0 then "delivered" else "pending",
          paymentMethod := "cash",
          paymentStatus := if k % 3 = 0 then "completed" else "pending",
          createdAt := k, updatedAt := k,
          deliveredAt := if k % 3 = 0 then some k else none }) ++
      [{ id := 50, buyer := 7, farmer := 2, product := 102, quantity := 1, price := 7,
         totalAmount := 7, status := "accepted", paymentMethod := "upi",
         paymentStatus := "pending", createdAt := 20, updatedAt := 20, deliveredAt := none }],
    nextId := 103 }

/-! ## Lists of documents -/

theorem find_map_id {α : Type} (key : α → ObjectId) (f : α → α) (hf : ∀ x, key (f x) = key x)
    (l : List α) (i : ObjectId) :
    (l.map f).find? (fun x => decide (key x = i)) =
      (l.find? (fun x => decide (key x = i))).map f := by
  induction l with
  | nil => rfl
  | cons a l ih =>
    simp only [List.map_cons, List.find?_cons, hf]
    by_cases h : key a = i <;> simp [h, ih]

theorem find_append_some {α : Type} (q : α → Bool) (l l2 : List α) (a : α)
    (h : l.find? q = some a) : (l ++ l2).find? q = some a := by
  simp [List.find?_append, h]

theorem productValidate_iff (p : Product) :
    p.validate = true ↔ 0 ≤ p.price ∧ 0 ≤ p.quantity ∧ p.status ∈ productStatusEnum := by
  simp [Product.validate, and_assoc]

theorem orderValidate_iff (o : Order) :
    o.validate = true ↔ 1 ≤ o.quantity ∧ 0 ≤ o.price ∧ o.status ∈ orderStatusEnum ∧
      o.paymentMethod ∈ paymentMethodEnum ∧ o.paymentStatus ∈ paymentStatusEnum := by
  simp [Order.validate, and_assoc]

theorem productFindById_id {s : Store} {i : ObjectId} {p : Product}
    (h : Product.findById s i = some p) : p.id = i := by
  have := List.find?_some h
  simpa using this

theorem orderFindById_id {s : Store} {i : ObjectId} {o : Order}
    (h : Order.findById s i = some o) : o.id = i := by
  have := List.find?_some h
  simpa using this


/-! ## createOrder -/

theorem createOrder_ok (s : Store) (user : ObjectId) (body : OrderBody) (now : Nat) (p : Product)
    (hfind : Product.findById s body.product = some p) (hvalid : p.validate = true)
    (hpay : body.paymentMethod ∈ paymentMethodEnum)
    (hq1 : 1 ≤ body.quantity) (hq2 : body.quantity ≤ p.quantity) :
    createOrder s user body now =
      ({ products := s.products.map (fun x =>
            if x.id = body.product then
              Product.patch p
                { p with quantity := p.quantity - body.quantity,
                         status := if p.quantity - body.quantity = 0 then "sold" else p.status,
                         updatedAt := now } x
            else x),
         orders := s.orders ++
           [{ id := s.nextId, buyer := user, farmer := p.farmer, product := body.product,
              quantity := body.quantity, price := p.price,
              totalAmount := p.price * body.quantity, status := "pending",
              paymentMethod := body.paymentMethod, paymentStatus := "pending",
              createdAt := now, updatedAt := now, deliveredAt := none }],
         nextId := s.nextId + 1 },
       { status := 201, success := true, message := "Order created successfully",
         data := some
           { id := s.nextId, buyer := user, farmer := p.farmer, product := body.product,
             quantity := body.quantity, price := p.price,
             totalAmount := p.price * body.quantity, status := "pending",
             paymentMethod := body.paymentMethod, paymentStatus := "pending",
             createdAt := now, updatedAt := now, deliveredAt := none } }) := by
  have hid : p.id = body.product := productFindById_id hfind
  obtain ⟨hp0, hpq, hps⟩ := (productValidate_iff p).1 hvalid
  have hlt : ¬ p.quantity < body.quantity := not_lt.mpr hq2
  have hov : Order.validate
      { id := s.nextId, buyer := user, farmer := p.farmer, product := body.product,
        quantity := body.quantity, price := p.price,
        totalAmount := p.price * body.quantity, status := "pending",
        paymentMethod := body.paymentMethod, paymentStatus := "pending",
        createdAt := now, updatedAt := now, deliveredAt := none } = true := by
    rw [orderValidate_iff]
    exact ⟨hq1, hp0, by simp [orderStatusEnum], hpay, by simp [paymentStatusEnum]⟩
  have hpv : Product.validate
      (if p.quantity - body.quantity = 0 then
          { p with quantity := p.quantity - body.quantity, status := "sold" }
        else { p with quantity := p.quantity - body.quantity }) = true := by
    split <;> rw [productValidate_iff]
    · exact ⟨hp0, by simpa using hq2, by simp [productStatusEnum]⟩
    · exact ⟨hp0, by simpa using hq2, hps⟩
  unfold createOrder
  simp only [hfind, hlt, if_false, Order.create, hov, if_true, Product.save, hpv]
  by_cases h0 : p.quantity - body.quantity = 0 <;> simp [h0, hid]


theorem productPatch_id (orig doc p : Product) : (Product.patch orig doc p).id = p.id := rfl

theorem orderPatch_id (orig doc o : Order) : (Order.patch orig doc o).id = o.id := rfl

theorem productPatch_self (p doc : Product) (h : doc.id = p.id) : Product.patch p doc p = doc := by
  cases p; cases doc
  simp only [Product.patch, Product.mk.injEq] at *
  refine ⟨h.symm, ?_, ?_, ?_, ?_, ?_, ?_⟩ <;> split <;> simp_all

theorem orderPatch_self (o doc : Order) (h : doc.id = o.id) : Order.patch o doc o = doc := by
  cases o; cases doc
  simp only [Order.patch, Order.mk.injEq] at *
  refine ⟨h.symm, ?_, ?_, ?_, ?_, ?_, ?_, ?_, ?_, ?_, ?_, ?_, ?_⟩ <;> split <;> simp_all

theorem getElem?_map_other {α : Type} (key : α → ObjectId) (f : α → α) (i : ObjectId)
    (l : List α) (k : Nat) (x : α) (hx : l[k]? = some x) (hne : key x ≠ i) :
    (l.map (fun y => if key y = i then f y else y))[k]? = some x := by
  simp [List.getElem?_map, hx, hne]

/-- C1 (as amended): on an existing product that satisfies the product schema, with a
natural-number stock S ≤ 2^53 and price P, a request with an accepted payment method
for a natural-number quantity q with 1 ≤ q ≤ S succeeds with 201, inserts exactly one
order (pending, payment pending, buyer the caller, farmer the product owner, quantity
q, unit price P), leaves every existing order as it was, sets the product stock to
S - q and leaves every other product as it was. -/
theorem createOrder_reserves_stock (s : Store) (user : ObjectId) (body : OrderBody) (now : Nat)
    (p : Product) (S q : ℕ) (hfind : Product.findById s body.product = some p)
    (hvalid : p.validate = true) (hpay : body.paymentMethod ∈ paymentMethodEnum)
    (hS : p.quantity = S) (hq : body.quantity = q)
    (hq1 : 1 ≤ q) (hq2 : q ≤ S) (_hS53 : S ≤ 2 ^ 53) :
    ∃ o p1,
      (createOrder s user body now).2 =
        { status := 201, success := true, message := "Order created successfully",
          data := some o } ∧
      (createOrder s user body now).1.orders = s.orders ++ [o] ∧
      o.status = "pending" ∧ o.paymentStatus = "pending" ∧ o.buyer = user ∧
      o.farmer = p.farmer ∧ o.product = body.product ∧ o.quantity = q ∧
      o.price = p.price ∧
      Product.findById (createOrder s user body now).1 body.product = some p1 ∧
      p1.quantity = ((S - q : ℕ) : ℚ) ∧ p1.farmer = p.farmer ∧ p1.price = p.price ∧
      (createOrder s user body now).1.products.length = s.products.length ∧
      ∀ (k : Nat) (x : Product), s.products[k]? = some x → x.id ≠ body.product →
        (createOrder s user body now).1.products[k]? = some x := by
  have hid : p.id = body.product := productFindById_id hfind
  have hq1r : (1 : ℚ) ≤ body.quantity := by rw [hq]; exact_mod_cast hq1
  have hq2r : body.quantity ≤ p.quantity := by rw [hq, hS]; exact_mod_cast hq2
  rw [createOrder_ok s user body now p hfind hvalid hpay hq1r hq2r]
  refine ⟨_, { p with quantity := p.quantity - body.quantity,
                       status := if p.quantity - body.quantity = 0 then "sold" else p.status,
                       updatedAt := now },
    rfl, rfl, rfl, rfl, rfl, rfl, rfl, hq, rfl, ?_, ?_, rfl, rfl, ?_, ?_⟩
  · unfold Product.findById at hfind ⊢
    simp only []
    rw [find_map_id Product.id _ (fun x => by split <;> simp [productPatch_id]), hfind]
    simp only [Option.map_some', hid, if_true]
    rw [productPatch_self p _ hid.symm]
  · show p.quantity - body.quantity = _
    rw [hS, hq, Nat.cast_sub hq2]
  · simp
  · intro k x hx hne
    exact getElem?_map_other Product.id _ body.product s.products k x hx hne

/-- C1 (as amended) at the spec's end-to-end input: stock 100, price 10, quantity 30. -/
theorem createOrder_reserves_stock_witness :
    Product.findById demoStore 0 =
        some { id := 0, farmer := 1, price := 10, quantity := 100, status := "active",
               createdAt := 0, updatedAt := 0 } ∧
      ∃ o p1,
        (createOrder demoStore 7 ⟨0, 30, "cash"⟩ 5).2 =
          { status := 201, success := true, message := "Order created successfully",
            data := some o } ∧
        (createOrder demoStore 7 ⟨0, 30, "cash"⟩ 5).1.orders = demoStore.orders ++ [o] ∧
        o.quantity = 30 ∧ o.price = 10 ∧
        Product.findById (createOrder demoStore 7 ⟨0, 30, "cash"⟩ 5).1 0 = some p1 ∧
        p1.quantity = 70 := by
  refine ⟨rfl, ?_⟩
  obtain ⟨o, p1, h1, h2, -, -, -, -, -, h8, h9, h10, h11, -⟩ :=
    createOrder_reserves_stock demoStore 7 ⟨0, 30, "cash"⟩ 5
      { id := 0, farmer := 1, price := 10, quantity := 100, status := "active",
        createdAt := 0, updatedAt := 0 } 100 30
      rfl (by decide) (by decide) (by norm_num) (by norm_num) (by norm_num) (by norm_num)
      (by norm_num)
  exact ⟨o, p1, h1, h2, by rw [h8]; norm_num, h9, h10, by rw [h11]; norm_num⟩

/-- C1 (counterexample): product 0 has stock 100 and, after the farmer's
`{ "$inc": { "price": -20 } }`, price -10. A request for 30 units, within the stock,
is answered 500 "Server error"; no order is inserted and the stock stays 100. -/
theorem createOrder_fails_on_negative_price :
    (Product.findById negativePriceStore 0).map (fun p => (p.price, p.quantity)) =
        some (-10, 100) ∧
      (createOrder negativePriceStore 7 ⟨0, 30, "cash"⟩ 2).2 = serverError ∧
      (createOrder negativePriceStore 7 ⟨0, 30, "cash"⟩ 2).1 = negativePriceStore := by
  refine ⟨?_, ?_, ?_⟩ <;>
  norm_num +decide [negativePriceStore, negativePriceRequests, runAll, handle, emptyStore,
    createProduct, Product.create, updateProduct, Product.findByIdAndUpdate,
    ProductUpdate.validate, ProductUpdate.conflict, ProductUpdate.apply, NumericOp.apply,
    createOrder, Product.findById, Order.create, Order.validate, Product.validate,
    serverError, paymentMethodEnum, orderStatusEnum, paymentStatusEnum, productStatusEnum]

/-- C2: a request for more than the stock of an existing product is answered 400
"Insufficient quantity available"; no order is inserted and the store (the product's
stock and status included) is unchanged. -/
theorem createOrder_insufficient_stock (s : Store) (user : ObjectId) (body : OrderBody)
    (now : Nat) (p : Product) (hfind : Product.findById s body.product = some p)
    (hq : p.quantity < body.quantity) :
    createOrder s user body now =
      (s, { status := 400, success := false, message := "Insufficient quantity available",
            data := none }) := by
  unfold createOrder
  simp only [hfind, hq, if_true]

/-- C2 at the spec's input: stock 70, quantity 80. -/
theorem createOrder_insufficient_stock_witness :
    createOrder
        { products := [{ id := 0, farmer := 1, price := 10, quantity := 70, status := "active",
                         createdAt := 0, updatedAt := 5 }],
          orders := [], nextId := 2 } 8 ⟨0, 80, "cash"⟩ 6 =
      ({ products := [{ id := 0, farmer := 1, price := 10, quantity := 70, status := "active",
                        createdAt := 0, updatedAt := 5 }],
         orders := [], nextId := 2 },
       { status := 400, success := false, message := "Insufficient quantity available",
         data := none }) :=
  createOrder_insufficient_stock _ 8 ⟨0, 80, "cash"⟩ 6
    { id := 0, farmer := 1, price := 10, quantity := 70, status := "active",
      createdAt := 0, updatedAt := 5 } rfl (by norm_num)


/-! ## Two createOrder requests -/

theorem findById_after_createOrder (s : Store) (user : ObjectId) (body : OrderBody) (now : Nat)
    (p : Product) (hfind : Product.findById s body.product = some p)
    (hvalid : p.validate = true) (hpay : body.paymentMethod ∈ paymentMethodEnum)
    (hq1 : 1 ≤ body.quantity) (hq2 : body.quantity ≤ p.quantity) :
    Product.findById (createOrder s user body now).1 body.product =
      some { p with quantity := p.quantity - body.quantity,
                    status := if p.quantity - body.quantity = 0 then "sold" else p.status,
                    updatedAt := now } := by
  have hid : p.id = body.product := productFindById_id hfind
  rw [createOrder_ok s user body now p hfind hvalid hpay hq1 hq2]
  unfold Product.findById at hfind ⊢
  simp only []
  rw [find_map_id Product.id _ (fun x => by split <;> simp [productPatch_id]), hfind]
  simp only [Option.map_some', hid, if_true]
  rw [productPatch_self p _ hid.symm]

theorem createOrderTask_run_alone (c : CreateOrderCall) (s : Store) :
    CreateOrderTask.step c
        (CreateOrderTask.step c (CreateOrderTask.step c s .start).1
          (CreateOrderTask.step c s .start).2).1
        (CreateOrderTask.step c (CreateOrderTask.step c s .start).1
          (CreateOrderTask.step c s .start).2).2 =
      ((createOrder s c.user c.body c.now).1,
       .finished (createOrder s c.user c.body c.now).2) := by
  unfold createOrder
  cases hf : Product.findById s c.body.product with
  | none => simp [CreateOrderTask.step, hf]
  | some p =>
    by_cases hlt : p.quantity < c.body.quantity
    · simp [CreateOrderTask.step, hf, hlt]
    · simp only [CreateOrderTask.step, hf, hlt, if_false]
      cases hc : Order.create s c.user p.farmer c.body.product c.body.quantity p.price
          (p.price * c.body.quantity) c.body.paymentMethod c.now with
      | error e => simp [CreateOrderTask.step]
      | ok r =>
        obtain ⟨s1, o⟩ := r
        simp only [CreateOrderTask.step]
        cases hs : Product.save s1 p
            (if p.quantity - c.body.quantity = 0 then
              { p with quantity := p.quantity - c.body.quantity, status := "sold" }
            else { p with quantity := p.quantity - c.body.quantity }) c.now with
        | error e => simp
        | ok r2 => simp

theorem race_run_serial (a b : CreateOrderCall) (s : Store) :
    Race.run a b ⟨s, .start, .start⟩ [false, false, false, true, true, true] =
      ⟨(createOrder (createOrder s a.user a.body a.now).1 b.user b.body b.now).1,
       .finished (createOrder s a.user a.body a.now).2,
       .finished (createOrder (createOrder s a.user a.body a.now).1 b.user b.body b.now).2⟩ := by
  have ha := createOrderTask_run_alone a s
  have hb := createOrderTask_run_alone b (createOrder s a.user a.body a.now).1
  simp only [Race.run, List.foldl, Race.step, if_true, if_false, Bool.false_eq_true]
  rw [ha]
  simp only []
  rw [hb]


theorem race_run_serial_swapped (a b : CreateOrderCall) (s : Store) :
    Race.run a b ⟨s, .start, .start⟩ [true, true, true, false, false, false] =
      ⟨(createOrder (createOrder s b.user b.body b.now).1 a.user a.body a.now).1,
       .finished (createOrder (createOrder s b.user b.body b.now).1 a.user a.body a.now).2,
       .finished (createOrder s b.user b.body b.now).2⟩ := by
  have hb := createOrderTask_run_alone b s
  have ha := createOrderTask_run_alone a (createOrder s b.user b.body b.now).1
  simp only [Race.run, List.foldl, Race.step, if_true, if_false, Bool.false_eq_true]
  rw [hb]
  simp only []
  rw [ha]

theorem createOrder_twice (s : Store) (a b : CreateOrderCall) (p : Product)
    (hfind : Product.findById s a.body.product = some p)
    (hsame : b.body.product = a.body.product) (hvalid : p.validate = true)
    (hpay : a.body.paymentMethod ∈ paymentMethodEnum)
    (ha1 : 1 ≤ a.body.quantity) (ha2 : a.body.quantity ≤ p.quantity)
    (hab : p.quantity < a.body.quantity + b.body.quantity) :
    ∃ o p1,
      (createOrder s a.user a.body a.now).2 =
        { status := 201, success := true, message := "Order created successfully",
          data := some o } ∧
      o.quantity = a.body.quantity ∧
      createOrder (createOrder s a.user a.body a.now).1 b.user b.body b.now =
        ((createOrder s a.user a.body a.now).1,
         { status := 400, success := false, message := "Insufficient quantity available",
           data := none }) ∧
      (createOrder s a.user a.body a.now).1.orders = s.orders ++ [o] ∧
      Product.findById (createOrder s a.user a.body a.now).1 a.body.product = some p1 ∧
      p1.quantity = p.quantity - a.body.quantity := by
  have hf1 := findById_after_createOrder s a.user a.body a.now p hfind hvalid hpay ha1 ha2
  have hok := createOrder_ok s a.user a.body a.now p hfind hvalid hpay ha1 ha2
  refine ⟨_, _, by rw [hok], rfl, ?_, by rw [hok], hf1, rfl⟩
  have hlt : p.quantity - a.body.quantity < b.body.quantity := by linarith
  generalize createOrder s a.user a.body a.now = r at hf1 ⊢
  unfold createOrder
  rw [hsame]
  simp only [hf1, hlt, if_true]

/-- C3 (as amended): when the two requests do not overlap, whichever runs first succeeds,
the other is answered 400 "Insufficient quantity available", exactly one order is
inserted and the final stock is S minus the quantity of the request that ran first. -/
theorem createOrder_serial_exactly_one (s : Store) (a b : CreateOrderCall) (p : Product)
    (hfind : Product.findById s a.body.product = some p)
    (hsame : b.body.product = a.body.product) (hvalid : p.validate = true)
    (hpayA : a.body.paymentMethod ∈ paymentMethodEnum)
    (hpayB : b.body.paymentMethod ∈ paymentMethodEnum)
    (ha1 : 1 ≤ a.body.quantity) (ha2 : a.body.quantity ≤ p.quantity)
    (hb1 : 1 ≤ b.body.quantity) (hb2 : b.body.quantity ≤ p.quantity)
    (hab : p.quantity < a.body.quantity + b.body.quantity) :
    (∃ o p1,
      (Race.run a b ⟨s, .start, .start⟩ [false, false, false, true, true, true]).first =
        .finished { status := 201, success := true, message := "Order created successfully",
                    data := some o } ∧
      o.quantity = a.body.quantity ∧
      (Race.run a b ⟨s, .start, .start⟩ [false, false, false, true, true, true]).second =
        .finished { status := 400, success := false,
                    message := "Insufficient quantity available", data := none } ∧
      (Race.run a b ⟨s, .start, .start⟩ [false, false, false, true, true, true]).store.orders =
        s.orders ++ [o] ∧
      Product.findById
        (Race.run a b ⟨s, .start, .start⟩ [false, false, false, true, true, true]).store
        a.body.product = some p1 ∧
      p1.quantity = p.quantity - a.body.quantity) ∧
    (∃ o p1,
      (Race.run a b ⟨s, .start, .start⟩ [true, true, true, false, false, false]).second =
        .finished { status := 201, success := true, message := "Order created successfully",
                    data := some o } ∧
      o.quantity = b.body.quantity ∧
      (Race.run a b ⟨s, .start, .start⟩ [true, true, true, false, false, false]).first =
        .finished { status := 400, success := false,
                    message := "Insufficient quantity available", data := none } ∧
      (Race.run a b ⟨s, .start, .start⟩ [true, true, true, false, false, false]).store.orders =
        s.orders ++ [o] ∧
      Product.findById
        (Race.run a b ⟨s, .start, .start⟩ [true, true, true, false, false, false]).store
        a.body.product = some p1 ∧
      p1.quantity = p.quantity - b.body.quantity) := by
  constructor
  · obtain ⟨o, p1, h1, h2, h3, h4, h5, h6⟩ :=
      createOrder_twice s a b p hfind hsame hvalid hpayA ha1 ha2 hab
    rw [race_run_serial]
    refine ⟨o, p1, ?_, h2, ?_, ?_, ?_, h6⟩
    · simp only [h1]
    · simp only [h3]
    · simp only [h3, h4]
    · simp only [h3, h5]
  · obtain ⟨o, p1, h1, h2, h3, h4, h5, h6⟩ :=
      createOrder_twice s b a p (hsame ▸ hfind) hsame.symm hvalid hpayB hb1 hb2
        (by linarith)
    rw [race_run_serial_swapped]
    refine ⟨o, p1, ?_, h2, ?_, ?_, ?_, h6⟩
    · simp only [h1]
    · simp only [h3]
    · simp only [h3, h4]
    · simp only [h3, ← hsame, h5]

/-- C3 at the spec's input, run serially: stock 10, quantities 6 and 6. -/
theorem createOrder_serial_exactly_one_witness :
    ∃ o p1,
      (Race.run ⟨7, ⟨0, 6, "cash"⟩, 1⟩ ⟨8, ⟨0, 6, "upi"⟩, 2⟩ ⟨raceStore, .start, .start⟩
          [false, false, false, true, true, true]).first =
        .finished { status := 201, success := true, message := "Order created successfully",
                    data := some o } ∧
      (Race.run ⟨7, ⟨0, 6, "cash"⟩, 1⟩ ⟨8, ⟨0, 6, "upi"⟩, 2⟩ ⟨raceStore, .start, .start⟩
          [false, false, false, true, true, true]).second =
        .finished { status := 400, success := false,
                    message := "Insufficient quantity available", data := none } ∧
      Product.findById
        (Race.run ⟨7, ⟨0, 6, "cash"⟩, 1⟩ ⟨8, ⟨0, 6, "upi"⟩, 2⟩ ⟨raceStore, .start, .start⟩
          [false, false, false, true, true, true]).store 0 = some p1 ∧
      p1.quantity = 4 := by
  obtain ⟨⟨o, p1, h1, -, h3, -, h5, h6⟩, -⟩ :=
    createOrder_serial_exactly_one raceStore ⟨7, ⟨0, 6, "cash"⟩, 1⟩ ⟨8, ⟨0, 6, "upi"⟩, 2⟩
      { id := 0, farmer := 1, price := 5, quantity := 10, status := "active",
        createdAt := 0, updatedAt := 0 }
      rfl rfl (by decide) (by decide) (by decide) (by norm_num) (by norm_num) (by norm_num)
      (by norm_num) (by norm_num)
  exact ⟨o, p1, h1, h3, h5, by rw [h6]; norm_num⟩

/-- C3 (counterexample): stock 10 and two requests for 6 whose storage round-trips
alternate. Both reads see stock 10, both requests are answered 201, two orders of 6 are
stored and the final stock is 4. -/
theorem createOrder_race_oversells :
    Race.run ⟨7, ⟨0, 6, "cash"⟩, 1⟩ ⟨8, ⟨0, 6, "upi"⟩, 2⟩ ⟨raceStore, .start, .start⟩
        [false, true, false, true, false, true] =
      { store :=
          { products := [{ id := 0, farmer := 1, price := 5, quantity := 4, status := "active",
                           createdAt := 0, updatedAt := 2 }],
            orders :=
              [{ id := 1, buyer := 7, farmer := 1, product := 0, quantity := 6, price := 5,
                 totalAmount := 30, status := "pending", paymentMethod := "cash",
                 paymentStatus := "pending", createdAt := 1, updatedAt := 1,
                 deliveredAt := none },
               { id := 2, buyer := 8, farmer := 1, product := 0, quantity := 6, price := 5,
                 totalAmount := 30, status := "pending", paymentMethod := "upi",
                 paymentStatus := "pending", createdAt := 2, updatedAt := 2,
                 deliveredAt := none }],
            nextId := 3 },
        first := .finished
          { status := 201, success := true, message := "Order created successfully",
            data := some
              { id := 1, buyer := 7, farmer := 1, product := 0, quantity := 6, price := 5,
                totalAmount := 30, status := "pending", paymentMethod := "cash",
                paymentStatus := "pending", createdAt := 1, updatedAt := 1,
                deliveredAt := none } },
        second := .finished
          { status := 201, success := true, message := "Order created successfully",
            data := some
              { id := 2, buyer := 8, farmer := 1, product := 0, quantity := 6, price := 5,
                totalAmount := 30, status := "pending", paymentMethod := "upi",
                paymentStatus := "pending", createdAt := 2, updatedAt := 2,
                deliveredAt := none } } } := by
  norm_num +decide [Race.run, Race.step, CreateOrderTask.step, raceStore, Product.findById,
    Order.create, Order.validate, Product.save, Product.validate, Product.patch,
    paymentMethodEnum, orderStatusEnum, paymentStatusEnum, productStatusEnum]


/-! ## The stock invariant -/

theorem productSave_quantitiesValid (s s1 : Store) (orig doc d : Product) (now : Nat)
    (h : Product.save s orig doc now = .ok (s1, d)) (hs : s.quantitiesValid) :
    s1.quantitiesValid := by
  unfold Product.save at h
  split at h
  · rename_i hv
    obtain ⟨-, hq, -⟩ := (productValidate_iff doc).1 hv
    simp only [Except.ok.injEq, Prod.mk.injEq] at h
    obtain ⟨rfl, -⟩ := h
    refine ⟨?_, hs.2⟩
    intro x hx
    simp only [List.mem_map] at hx
    obtain ⟨y, hy, rfl⟩ := hx
    split
    · simp only [Product.patch]
      split
      · exact hs.1 y hy
      · exact hq
    · exact hs.1 y hy
  · simp at h

theorem orderSave_quantitiesValid (s s1 : Store) (orig doc d : Order) (now : Nat)
    (h : Order.save s orig doc now = .ok (s1, d)) (hs : s.quantitiesValid) :
    s1.quantitiesValid := by
  unfold Order.save at h
  split at h
  · rename_i hv
    obtain ⟨hq, -⟩ := (orderValidate_iff doc).1 hv
    simp only [Except.ok.injEq, Prod.mk.injEq] at h
    obtain ⟨rfl, -⟩ := h
    refine ⟨hs.1, ?_⟩
    intro x hx
    simp only [List.mem_map] at hx
    obtain ⟨y, hy, rfl⟩ := hx
    split
    · simp only [Order.patch]
      split
      · exact hs.2 y hy
      · exact hq
    · exact hs.2 y hy
  · simp at h

theorem orderCreate_quantitiesValid (s s1 : Store) (buyer farmer product : ObjectId)
    (quantity price totalAmount : ℚ) (paymentMethod : String) (now : Nat) (d : Order)
    (h : Order.create s buyer farmer product quantity price totalAmount paymentMethod now =
      .ok (s1, d)) (hs : s.quantitiesValid) : s1.quantitiesValid := by
  unfold Order.create at h
  simp only [] at h
  split at h
  · rename_i hv
    obtain ⟨hq, -⟩ := (orderValidate_iff _).1 hv
    simp only [Except.ok.injEq, Prod.mk.injEq] at h
    obtain ⟨rfl, -⟩ := h
    refine ⟨hs.1, ?_⟩
    intro x hx
    simp only [List.mem_append, List.mem_singleton] at hx
    rcases hx with hx | rfl
    · exact hs.2 x hx
    · exact hq
  · simp at h

theorem createOrder_quantitiesValid (s : Store) (user : ObjectId) (body : OrderBody) (now : Nat)
    (hs : s.quantitiesValid) : (createOrder s user body now).1.quantitiesValid := by
  unfold createOrder
  split
  · exact hs
  · split
    · exact hs
    · simp only []
      split
      · exact hs
      · rename_i s1 order hc
        have h1 := orderCreate_quantitiesValid _ _ _ _ _ _ _ _ _ _ _ hc hs
        split
        · exact h1
        · rename_i s2 d hsave
          exact productSave_quantitiesValid _ _ _ _ _ _ hsave h1

theorem updateOrderStatus_quantitiesValid (s : Store) (user id : ObjectId)
    (status : Option String) (now : Nat) (hs : s.quantitiesValid) :
    (updateOrderStatus s user id status now).1.quantitiesValid := by
  unfold updateOrderStatus
  split
  · exact hs
  · split
    · exact hs
    · simp only []
      split
      · exact hs
      · rename_i s1 d hsave
        exact orderSave_quantitiesValid _ _ _ _ _ _ hsave hs

theorem cancelOrder_quantitiesValid (s : Store) (user id : ObjectId) (now : Nat)
    (hs : s.quantitiesValid) : (cancelOrder s user id now).1.quantitiesValid := by
  unfold cancelOrder
  split
  · exact hs
  · split
    · exact hs
    · split
      · exact hs
      · split
        · exact hs
        · rename_i s1 d hsave
          have h1 := orderSave_quantitiesValid _ _ _ _ _ _ hsave hs
          split
          · exact h1
          · simp only []
            split
            · exact h1
            · rename_i s2 d2 hsave2
              exact productSave_quantitiesValid _ _ _ _ _ _ hsave2 h1

theorem createProduct_quantitiesValid (s : Store) (user : ObjectId) (body : ProductBody)
    (now : Nat) (hs : s.quantitiesValid) : (createProduct s user body now).1.quantitiesValid := by
  unfold createProduct Product.create
  simp only []
  split
  · exact hs
  · rename_i s1 d hc
    split at hc
    · rename_i hv
      obtain ⟨-, hq, -⟩ := (productValidate_iff _).1 hv
      simp only [Except.ok.injEq, Prod.mk.injEq] at hc
      obtain ⟨rfl, -⟩ := hc
      refine ⟨?_, hs.2⟩
      intro x hx
      simp only [List.mem_append, List.mem_singleton] at hx
      rcases hx with hx | rfl
      · exact hs.1 x hx
      · exact hq
    · simp at hc

theorem updateProduct_quantitiesValid (s : Store) (user id : ObjectId) (body : ProductUpdate)
    (hop : body.quantityOp = none) (hs : s.quantitiesValid) :
    (updateProduct s user id body).1.quantitiesValid := by
  unfold updateProduct
  split
  · exact hs
  · split
    · exact hs
    · split
      · exact hs
      · rename_i s1 d hu
        unfold Product.findByIdAndUpdate at hu
        split at hu
        · rename_i hv
          simp only [Except.ok.injEq, Prod.mk.injEq] at hu
          obtain ⟨rfl, -⟩ := hu
          refine ⟨?_, hs.2⟩
          intro x hx
          simp only [List.mem_map] at hx
          obtain ⟨y, hy, rfl⟩ := hx
          split
          · simp only [ProductUpdate.validate, Bool.and_eq_true] at hv
            have hq := hv.1.1.2
            cases hbq : body.quantity with
            | none => simpa [ProductUpdate.apply, hbq, hop] using hs.1 y hy
            | some q => simpa [ProductUpdate.apply, hbq, hop] using hq
          · exact hs.1 y hy
        · simp at hu

theorem handle_quantitiesValid (s : Store) (r : Request) (hr : r.noQuantityOperator = true)
    (hs : s.quantitiesValid) : (handle s r).1.quantitiesValid := by
  cases r with
  | createProduct user body now => exact createProduct_quantitiesValid s user body now hs
  | updateProduct user id body =>
    exact updateProduct_quantitiesValid s user id body
      (by simpa [Request.noQuantityOperator] using hr) hs
  | createOrder user body now => exact createOrder_quantitiesValid s user body now hs
  | updateOrderStatus user id status now =>
    exact updateOrderStatus_quantitiesValid s user id status now hs
  | cancelOrder user id now => exact cancelOrder_quantitiesValid s user id now hs

theorem runAll_quantitiesValid (rs : List Request) (s : Store)
    (hrs : ∀ r ∈ rs, r.noQuantityOperator = true) (hs : s.quantitiesValid) :
    (runAll s rs).quantitiesValid := by
  induction rs generalizing s with
  | nil => exact hs
  | cons r rs ih =>
    exact ih _ (fun x hx => hrs x (List.mem_cons_of_mem _ hx))
      (handle_quantitiesValid s r (hrs r (List.mem_cons_self _ _)) hs)

/-- The stock invariant on the validated paths: in every state reached from the empty
store by serving createProduct, updateProduct, createOrder, updateOrderStatus and
cancelOrder requests one at a time, with arbitrary rational quantities in the requests
and with no update operator (`$inc`, `$mul`, `$min`, `$max`) on `quantity` in any
updateProduct body, every product has stock ≥ 0. -/
theorem stock_never_negative (rs : List Request)
    (hrs : ∀ r ∈ rs, r.noQuantityOperator = true) (p : Product)
    (hp : p ∈ (runAll emptyStore rs).products) : 0 ≤ p.quantity := by
  have h0 : emptyStore.quantitiesValid := by
    constructor <;> intro x hx <;> simp [emptyStore] at hx
  exact (runAll_quantitiesValid rs emptyStore hrs h0).1 p hp


/-- The stock invariant on a run with a negative, a fractional and a stock-emptying order,
and a refused attempt to set the stock to -5. -/
theorem stock_never_negative_witness :
    (∀ r ∈ mixedRequests, r.noQuantityOperator = true) ∧
      soldOutProduct ∈ (runAll emptyStore mixedRequests).products ∧
      0 ≤ soldOutProduct.quantity := by
  have hrs : ∀ r ∈ mixedRequests, r.noQuantityOperator = true := by
    intro r hr
    simp only [mixedRequests, List.mem_cons, List.mem_singleton, List.not_mem_nil,
      or_false] at hr
    rcases hr with rfl | rfl | rfl | rfl | rfl <;> rfl
  have hmem : soldOutProduct ∈ (runAll emptyStore mixedRequests).products := by
    norm_num +decide [runAll, handle, emptyStore, createProduct, Product.create, createOrder,
      updateProduct, Product.findByIdAndUpdate, ProductUpdate.validate,
      Product.findById, Order.create, Order.validate, Product.save, Product.validate,
      Product.patch, paymentMethodEnum, orderStatusEnum, paymentStatusEnum, productStatusEnum,
      mixedRequests, soldOutProduct]
  exact ⟨hrs, hmem, stock_never_negative mixedRequests hrs soldOutProduct hmem⟩

/-- C4 fails on the code: the farmer lists stock 100, an order for 30 leaves 70, and the
farmer's `PUT /api/products/0` with body `{ "$inc": { "quantity": -1000 } }` is
answered 200 and leaves the stock at -930, although `updateProduct` asks for
`runValidators: true` and the schema gives `quantity` the validator `min: 0`. The
stored product is one that `save` refuses: the buyer's cancelOrder is then answered
500. -/
theorem stock_negative_after_inc :
    (runAll emptyStore overdrawRequests).products.map (fun p => p.quantity) = [-930] ∧
      (handle (runAll emptyStore (overdrawRequests.take 2)) (.updateProduct 1 0
        ⟨none, none, none, none, none, none, none, some (.inc (-1000))⟩)).2 = 200 ∧
      (cancelOrder (runAll emptyStore overdrawRequests) 7 1 3).2 = serverError := by
  refine ⟨?_, ?_, ?_⟩ <;>
  norm_num +decide [runAll, handle, emptyStore, overdrawRequests, createProduct,
    Product.create, createOrder, cancelOrder, updateProduct, Product.findByIdAndUpdate,
    ProductUpdate.validate, ProductUpdate.conflict, ProductUpdate.apply, NumericOp.apply,
    Product.findById, Order.findById, Order.create, Order.save, Order.validate, Order.patch,
    Product.save, Product.validate, Product.patch, serverError, paymentMethodEnum,
    orderStatusEnum, paymentStatusEnum, productStatusEnum]


/-! ## The fixed part of an order -/

theorem keepsOrders_refl (s : Store) : s.keepsOrders s := fun _ o h => ⟨o, h, rfl⟩

theorem keepsOrders_trans {s s1 s2 : Store} (h1 : s.keepsOrders s1) (h2 : s1.keepsOrders s2) :
    s.keepsOrders s2 := by
  intro k o ho
  obtain ⟨o1, ho1, e1⟩ := h1 k o ho
  obtain ⟨o2, ho2, e2⟩ := h2 k o1 ho1
  exact ⟨o2, ho2, e2.trans e1⟩

theorem keepsOrders_of_orders_eq {s s1 : Store} (h : s1.orders = s.orders) :
    s.keepsOrders s1 := by
  intro k o ho
  exact ⟨o, by rw [h]; exact ho, rfl⟩

theorem keepsOrders_append {s s1 : Store} (l : List Order) (h : s1.orders = s.orders ++ l) :
    s.keepsOrders s1 := by
  intro k o ho
  refine ⟨o, ?_, rfl⟩
  rw [h]
  have hk : k < s.orders.length := by
    by_contra hc
    rw [List.getElem?_eq_none (not_lt.mp hc)] at ho
    cases ho
  rw [List.getElem?_append_left hk]
  exact ho

theorem orderPatch_fixedPart (orig doc o : Order) (h : doc.fixedPart = orig.fixedPart) :
    (Order.patch orig doc o).fixedPart = o.fixedPart := by
  simp only [Order.fixedPart, Prod.mk.injEq] at h
  obtain ⟨-, h2, h3, h4, h5, h6, h7⟩ := h
  simp [Order.fixedPart, Order.patch, h2, h3, h4, h5, h6, h7]

theorem orderSave_keepsOrders (s s1 : Store) (orig doc d : Order) (now : Nat)
    (h : Order.save s orig doc now = .ok (s1, d)) (hfix : doc.fixedPart = orig.fixedPart) :
    s.keepsOrders s1 := by
  unfold Order.save at h
  split at h
  · simp only [Except.ok.injEq, Prod.mk.injEq] at h
    obtain ⟨rfl, -⟩ := h
    intro k o ho
    simp only [List.getElem?_map, ho, Option.map_some', Option.some.injEq, exists_eq_left']
    split
    · exact orderPatch_fixedPart orig _ o hfix
    · rfl
  · simp at h

theorem productSave_orders (s s1 : Store) (orig doc d : Product) (now : Nat)
    (h : Product.save s orig doc now = .ok (s1, d)) : s1.orders = s.orders := by
  unfold Product.save at h
  split at h
  · simp only [Except.ok.injEq, Prod.mk.injEq] at h
    obtain ⟨rfl, -⟩ := h
    rfl
  · simp at h

theorem orderCreate_orders (s s1 : Store) (buyer farmer product : ObjectId)
    (quantity price totalAmount : ℚ) (paymentMethod : String) (now : Nat) (d : Order)
    (h : Order.create s buyer farmer product quantity price totalAmount paymentMethod now =
      .ok (s1, d)) :
    s1.orders = s.orders ++ [d] ∧
      d = { id := s.nextId, buyer := buyer, farmer := farmer, product := product,
            quantity := quantity, price := price, totalAmount := totalAmount,
            status := "pending", paymentMethod := paymentMethod, paymentStatus := "pending",
            createdAt := now, updatedAt := now, deliveredAt := none } := by
  unfold Order.create at h
  simp only [] at h
  split at h
  · simp only [Except.ok.injEq, Prod.mk.injEq] at h
    obtain ⟨rfl, rfl⟩ := h
    exact ⟨rfl, rfl⟩
  · simp at h

theorem createOrder_keepsOrders (s : Store) (user : ObjectId) (body : OrderBody) (now : Nat) :
    s.keepsOrders (createOrder s user body now).1 := by
  unfold createOrder
  split
  · exact keepsOrders_refl s
  · split
    · exact keepsOrders_refl s
    · simp only []
      split
      · exact keepsOrders_refl s
      · rename_i s1 order hc
        have h1 := (orderCreate_orders _ _ _ _ _ _ _ _ _ _ _ hc).1
        split
        · exact keepsOrders_append _ h1
        · rename_i s2 d hsave
          exact keepsOrders_append [order] ((productSave_orders _ _ _ _ _ _ hsave).trans h1)

theorem updateOrderStatus_keepsOrders (s : Store) (user id : ObjectId)
    (status : Option String) (now : Nat) : s.keepsOrders (updateOrderStatus s user id status now).1 := by
  unfold updateOrderStatus
  split
  · exact keepsOrders_refl s
  · split
    · exact keepsOrders_refl s
    · simp only []
      split
      · exact keepsOrders_refl s
      · rename_i s1 d hsave
        refine orderSave_keepsOrders _ _ _ _ _ _ hsave ?_
        split <;> rfl

theorem cancelOrder_keepsOrders (s : Store) (user id : ObjectId) (now : Nat) :
    s.keepsOrders (cancelOrder s user id now).1 := by
  unfold cancelOrder
  split
  · exact keepsOrders_refl s
  · split
    · exact keepsOrders_refl s
    · split
      · exact keepsOrders_refl s
      · split
        · exact keepsOrders_refl s
        · rename_i s1 d hsave
          have h1 := orderSave_keepsOrders _ _ _ _ _ _ hsave rfl
          split
          · exact h1
          · simp only []
            split
            · exact h1
            · rename_i s2 d2 hsave2
              exact keepsOrders_trans h1
                (keepsOrders_of_orders_eq (productSave_orders _ _ _ _ _ _ hsave2))

theorem createProduct_orders (s : Store) (user : ObjectId) (body : ProductBody) (now : Nat) :
    (createProduct s user body now).1.orders = s.orders := by
  unfold createProduct Product.create
  simp only []
  split
  · rfl
  · rename_i s1 d hc
    split at hc
    · simp only [Except.ok.injEq, Prod.mk.injEq] at hc
      obtain ⟨rfl, -⟩ := hc
      rfl
    · simp at hc

theorem updateProduct_orders (s : Store) (user id : ObjectId) (body : ProductUpdate) :
    (updateProduct s user id body).1.orders = s.orders := by
  unfold updateProduct
  split
  · rfl
  · split
    · rfl
    · split
      · rfl
      · rename_i s1 d hu
        unfold Product.findByIdAndUpdate at hu
        split at hu
        · simp only [Except.ok.injEq, Prod.mk.injEq] at hu
          obtain ⟨rfl, -⟩ := hu
          rfl
        · simp at hu

theorem handle_keepsOrders (s : Store) (r : Request) : s.keepsOrders (handle s r).1 := by
  cases r with
  | createProduct user body now =>
    exact keepsOrders_of_orders_eq (createProduct_orders s user body now)
  | updateProduct user id body =>
    exact keepsOrders_of_orders_eq (updateProduct_orders s user id body)
  | createOrder user body now => exact createOrder_keepsOrders s user body now
  | updateOrderStatus user id status now => exact updateOrderStatus_keepsOrders s user id status now
  | cancelOrder user id now => exact cancelOrder_keepsOrders s user id now

theorem runAll_keepsOrders (rs : List Request) (s : Store) : s.keepsOrders (runAll s rs) := by
  induction rs generalizing s with
  | nil => exact keepsOrders_refl s
  | cons r rs ih => exact keepsOrders_trans (handle_keepsOrders s r) (ih _)

theorem createOrder_created (s : Store) (user : ObjectId) (body : OrderBody) (now : Nat)
    (h : (createOrder s user body now).2.status = 201) :
    ∃ p, Product.findById s body.product = some p ∧
      (createOrder s user body now).2.data =
        some { id := s.nextId, buyer := user, farmer := p.farmer, product := body.product,
               quantity := body.quantity, price := p.price,
               totalAmount := p.price * body.quantity, status := "pending",
               paymentMethod := body.paymentMethod, paymentStatus := "pending",
               createdAt := now, updatedAt := now, deliveredAt := none } ∧
      (createOrder s user body now).1.orders = s.orders ++
        [{ id := s.nextId, buyer := user, farmer := p.farmer, product := body.product,
           quantity := body.quantity, price := p.price,
           totalAmount := p.price * body.quantity, status := "pending",
           paymentMethod := body.paymentMethod, paymentStatus := "pending",
           createdAt := now, updatedAt := now, deliveredAt := none }] := by
  cases hf : Product.findById s body.product with
  | none => simp [createOrder, hf] at h
  | some p =>
    refine ⟨p, rfl, ?_⟩
    unfold createOrder at h ⊢
    simp only [hf] at h ⊢
    by_cases hlt : p.quantity < body.quantity
    · simp [hlt] at h
    · simp only [hlt, if_false] at h ⊢
      cases hc : Order.create s user p.farmer body.product body.quantity p.price
          (p.price * body.quantity) body.paymentMethod now with
      | error e => simp [hc, serverError] at h
      | ok r =>
        obtain ⟨s1, order⟩ := r
        obtain ⟨h1, h2⟩ := orderCreate_orders _ _ _ _ _ _ _ _ _ _ _ hc
        simp only [hc] at h ⊢
        split at h
        · simp [serverError] at h
        · rename_i s2 d hsave
          simp only [hsave]
          exact ⟨by rw [h2], by rw [productSave_orders _ _ _ _ _ _ hsave, h1, h2]⟩


/-- C5: the order inserted by a successful createOrder has unit price equal to the
product's price at that moment and totalAmount = quantity * unit price; after any
further sequence of requests (updateProduct with price changes, updateOrderStatus,
cancelOrder, and also createProduct and createOrder) the same order is stored with the
same quantity, unit price and totalAmount, so the equality still holds. -/
theorem totalAmount_fixed_at_creation (s : Store) (user : ObjectId) (body : OrderBody)
    (now : Nat) (rs : List Request) (h : (createOrder s user body now).2.status = 201) :
    ∃ p o o1,
      Product.findById s body.product = some p ∧
      (createOrder s user body now).2.data = some o ∧
      (createOrder s user body now).1.orders[s.orders.length]? = some o ∧
      o.quantity = body.quantity ∧ o.price = p.price ∧
      o.totalAmount = o.quantity * o.price ∧
      (runAll (createOrder s user body now).1 rs).orders[s.orders.length]? = some o1 ∧
      o1.id = o.id ∧ o1.quantity = o.quantity ∧ o1.price = o.price ∧
      o1.totalAmount = o.totalAmount ∧ o1.totalAmount = o1.quantity * o1.price := by
  obtain ⟨p, hp, hdata, hord⟩ := createOrder_created s user body now h
  have hget : (createOrder s user body now).1.orders[s.orders.length]? =
      some { id := s.nextId, buyer := user, farmer := p.farmer, product := body.product,
             quantity := body.quantity, price := p.price,
             totalAmount := p.price * body.quantity, status := "pending",
             paymentMethod := body.paymentMethod, paymentStatus := "pending",
             createdAt := now, updatedAt := now, deliveredAt := none } := by
    rw [hord]
    simp
  obtain ⟨o1, ho1, hfix⟩ := runAll_keepsOrders rs _ _ _ hget
  simp only [Order.fixedPart, Prod.mk.injEq] at hfix
  obtain ⟨e1, -, -, -, e5, e6, e7⟩ := hfix
  refine ⟨p, _, o1, hp, hdata, hget, rfl, rfl, mul_comm _ _, ho1, e1, e5, e6, e7, ?_⟩
  rw [e7, e5, e6]
  exact mul_comm _ _

/-- C5 on the end-to-end store: order of 30 at price 10, then the price is raised to 25,
the order is accepted and a cancellation is attempted. -/
theorem totalAmount_fixed_at_creation_witness :
    (createOrder demoStore 7 ⟨0, 30, "cash"⟩ 5).2.status = 201 ∧
      ∃ o1,
        (runAll (createOrder demoStore 7 ⟨0, 30, "cash"⟩ 5).1 laterRequests).orders[0]? =
          some o1 ∧
        o1.quantity = 30 ∧ o1.price = 10 ∧ o1.totalAmount = 300 := by
  have h201 : (createOrder demoStore 7 ⟨0, 30, "cash"⟩ 5).2.status = 201 := by
    rw [createOrder_ok demoStore 7 ⟨0, 30, "cash"⟩ 5
      { id := 0, farmer := 1, price := 10, quantity := 100, status := "active",
        createdAt := 0, updatedAt := 0 }
      rfl (by decide) (by decide) (by norm_num) (by norm_num)]
  obtain ⟨p, o, o1, hp, -, -, hq, hpr, -, ho1, -, e1, e2, -, e4⟩ :=
    totalAmount_fixed_at_creation demoStore 7 ⟨0, 30, "cash"⟩ 5 laterRequests h201
  have hp10 : p.price = 10 := by
    have : p = { id := 0, farmer := 1, price := 10, quantity := 100, status := "active",
                 createdAt := 0, updatedAt := 0 } := by
      have h0 : Product.findById demoStore 0 =
          some { id := 0, farmer := 1, price := 10, quantity := 100, status := "active",
                 createdAt := 0, updatedAt := 0 } := rfl
      exact Option.some.inj (hp.symm.trans h0)
    rw [this]
  refine ⟨h201, o1, ho1, ?_, ?_, ?_⟩
  · rw [e1, hq]
  · rw [e2, hpr, hp10]
  · rw [e4, e1, e2, hq, hpr, hp10]; norm_num


/-! ## updateOrderStatus -/

theorem orderSave_findById (s s1 : Store) (orig doc d : Order) (now : Nat)
    (h : Order.save s orig doc now = .ok (s1, d)) (i : ObjectId) :
    Order.findById s1 i =
      (Order.findById s i).map (fun x =>
        if x.id = doc.id then Order.patch orig { doc with updatedAt := now } x else x) ∧
    s1.products = s.products ∧ d = { doc with updatedAt := now } ∧ doc.validate = true := by
  unfold Order.save at h
  split at h
  · rename_i hv
    simp only [Except.ok.injEq, Prod.mk.injEq] at h
    obtain ⟨rfl, rfl⟩ := h
    refine ⟨?_, rfl, rfl, hv⟩
    unfold Order.findById
    simp only []
    rw [find_map_id Order.id _ (fun x => by split <;> simp [orderPatch_id])]
  · simp at h

theorem orderSave_ok (s : Store) (orig doc : Order) (now : Nat) (hv : doc.validate = true) :
    Order.save s orig doc now =
      .ok ({ s with orders := s.orders.map (fun o =>
              if o.id = doc.id then Order.patch orig { doc with updatedAt := now } o else o) },
           { doc with updatedAt := now }) := by
  simp [Order.save, hv]

theorem updateOrderStatus_ok (s : Store) (id : ObjectId) (status : Option String) (now : Nat)
    (o : Order) (hfind : Order.findById s id = some o)
    (hv : Order.validate
      { o with status := status.getD "pending",
               paymentStatus :=
                 if status = some "delivered" then "completed" else o.paymentStatus,
               deliveredAt :=
                 if status = some "delivered" then some now else o.deliveredAt } = true) :
    updateOrderStatus s o.farmer id status now =
      ({ s with orders := s.orders.map (fun x =>
            if x.id = id then
              Order.patch o
                { o with status := status.getD "pending",
                         paymentStatus :=
                           if status = some "delivered" then "completed" else o.paymentStatus,
                         deliveredAt :=
                           if status = some "delivered" then some now else o.deliveredAt,
                         updatedAt := now } x
            else x) },
       { status := 200, success := true, message := "Order status updated successfully",
         data := some
           { o with status := status.getD "pending",
                    paymentStatus :=
                      if status = some "delivered" then "completed" else o.paymentStatus,
                    deliveredAt :=
                      if status = some "delivered" then some now else o.deliveredAt,
                    updatedAt := now } }) := by
  have hid : o.id = id := orderFindById_id hfind
  unfold updateOrderStatus
  by_cases hd : status = some "delivered"
  · simp only [hd, if_true] at hv ⊢
    simp only [hfind, ne_eq, not_true_eq_false, if_false, Order.save, hv, if_true]
    simp only [hid]
  · simp only [hd, if_false] at hv ⊢
    simp only [hfind, ne_eq, not_true_eq_false, if_false, Order.save, hv, if_true]
    simp only [hid]

theorem updateOrderStatus_fail (s : Store) (id : ObjectId) (status : Option String)
    (now : Nat) (o : Order) (hfind : Order.findById s id = some o)
    (hv : Order.validate
      { o with status := status.getD "pending",
               paymentStatus :=
                 if status = some "delivered" then "completed" else o.paymentStatus,
               deliveredAt :=
                 if status = some "delivered" then some now else o.deliveredAt } = false) :
    updateOrderStatus s o.farmer id status now = (s, serverError) := by
  unfold updateOrderStatus
  by_cases hd : status = some "delivered"
  · simp only [hd, if_true] at hv ⊢
    simp only [hfind, ne_eq, not_true_eq_false, if_false, Order.save, hv, Bool.false_eq_true]
  · simp only [hd, if_false] at hv ⊢
    simp only [hfind, ne_eq, not_true_eq_false, if_false, Order.save, hv, Bool.false_eq_true]

theorem updateOrderStatus_invalid (s : Store) (id : ObjectId) (status : String) (now : Nat)
    (o : Order) (hfind : Order.findById s id = some o) (hs : status ∉ orderStatusEnum) :
    updateOrderStatus s o.farmer id (some status) now = (s, serverError) := by
  apply updateOrderStatus_fail s id (some status) now o hfind
  rw [Bool.eq_false_iff]
  intro hc
  rw [orderValidate_iff] at hc
  exact hs hc.2.2.1

theorem findById_map_patch_self (s : Store) (id : ObjectId) (o doc : Order)
    (hfind : Order.findById s id = some o) (hdoc : doc.id = o.id) :
    Order.findById
      { s with orders := s.orders.map (fun x => if x.id = id then Order.patch o doc x else x) }
      id = some doc := by
  have hid : o.id = id := orderFindById_id hfind
  unfold Order.findById at hfind ⊢
  simp only []
  rw [find_map_id Order.id _ (fun x => by split <;> simp [orderPatch_id]), hfind]
  simp only [Option.map_some', hid, if_true]
  rw [orderPatch_self o _ hdoc]

/-- C6 (as amended): a request by the order's farmer is answered 200 exactly when the
requested status is one of the five values of the schema enum, whatever the current
status; the order then carries the requested status. Any other requested status is
answered 500 "Server error" and the store is unchanged. -/
theorem updateOrderStatus_accepts_enum (s : Store) (id : ObjectId) (status : String)
    (now : Nat) (o : Order) (hfind : Order.findById s id = some o)
    (hvalid : o.validate = true) :
    (status ∈ orderStatusEnum →
      ∃ o1,
        (updateOrderStatus s o.farmer id (some status) now).2 =
          { status := 200, success := true, message := "Order status updated successfully",
            data := some o1 } ∧
        o1.status = status ∧
        Order.findById (updateOrderStatus s o.farmer id (some status) now).1 id = some o1) ∧
    (status ∉ orderStatusEnum →
      updateOrderStatus s o.farmer id (some status) now = (s, serverError)) := by
  obtain ⟨h1, h2, h3, h4, h5⟩ := (orderValidate_iff o).1 hvalid
  constructor
  · intro hs
    have hv : Order.validate
        { o with status := (some status).getD "pending",
                 paymentStatus :=
                   if some status = some "delivered" then "completed" else o.paymentStatus,
                 deliveredAt :=
                   if some status = some "delivered" then some now else o.deliveredAt } =
        true := by
      rw [orderValidate_iff]
      refine ⟨h1, h2, hs, h4, ?_⟩
      simp only []
      split
      · simp [paymentStatusEnum]
      · exact h5
    rw [updateOrderStatus_ok s id (some status) now o hfind hv]
    exact ⟨_, rfl, rfl, findById_map_patch_self s id o _ hfind rfl⟩
  · exact updateOrderStatus_invalid s id status now o hfind

/-- C6 (as amended) on a delivered order: the farmer asks for `accepted`, which is
answered 200, and for `shipped`, which is not in the enum and is answered 500. -/
theorem updateOrderStatus_accepts_enum_witness :
    (∃ o1,
      (updateOrderStatus deliveredStore 1 1 (some "accepted") 10).2 =
        { status := 200, success := true, message := "Order status updated successfully",
          data := some o1 } ∧
      o1.status = "accepted" ∧
      Order.findById (updateOrderStatus deliveredStore 1 1 (some "accepted") 10).1 1 =
        some o1) ∧
    updateOrderStatus deliveredStore 1 1 (some "shipped") 10 = (deliveredStore, serverError) :=
  ⟨(updateOrderStatus_accepts_enum deliveredStore 1 "accepted" 10
      { id := 1, buyer := 7, farmer := 1, product := 0, quantity := 30, price := 10,
        totalAmount := 300, status := "delivered", paymentMethod := "cash",
        paymentStatus := "completed", createdAt := 5, updatedAt := 9, deliveredAt := some 9 }
      rfl (by decide)).1 (by decide),
   (updateOrderStatus_accepts_enum deliveredStore 1 "shipped" 10
      { id := 1, buyer := 7, farmer := 1, product := 0, quantity := 30, price := 10,
        totalAmount := 300, status := "delivered", paymentMethod := "cash",
        paymentStatus := "completed", createdAt := 5, updatedAt := 9, deliveredAt := some 9 }
      rfl (by decide)).2 (by decide)⟩

/-- C6 (counterexample): the order is delivered, a state the spec calls terminal, and the
spec's table has no transition from delivered to pending; the farmer's request for
`pending` is answered 200 and the stored order is pending again. -/
theorem updateOrderStatus_leaves_terminal_state :
    specLegalTransition "delivered" "pending" = false ∧
      (updateOrderStatus deliveredStore 1 1 (some "pending") 10).2.status = 200 ∧
      (Order.findById deliveredStore 1).map (fun o => o.status) = some "delivered" ∧
      (Order.findById (updateOrderStatus deliveredStore 1 1 (some "pending") 10).1 1).map
        (fun o => o.status) = some "pending" := by
  refine ⟨by decide, ?_, by decide, ?_⟩ <;>
  norm_num +decide [updateOrderStatus, deliveredStore, Order.findById, Order.save,
    Order.validate, Order.patch, paymentMethodEnum, orderStatusEnum, paymentStatusEnum]


/-! ## cancelOrder at most once -/

theorem orderSave_closedOrder (s s1 : Store) (orig doc d : Order) (now : Nat) (i id : ObjectId)
    (h : Order.save s orig doc now = .ok (s1, d)) (hfind : Order.findById s i = some orig)
    (hdoc : doc.id = orig.id) (hst : doc.status ≠ "pending")
    (hc : i = id ∨ s.closedOrder id) : s1.closedOrder id := by
  have hi : orig.id = i := orderFindById_id hfind
  obtain ⟨hf, -, -, -⟩ := orderSave_findById s s1 orig doc d now h id
  by_cases hid : i = id
  · subst hid
    rw [hfind] at hf
    simp only [Option.map_some', hdoc, if_true] at hf
    rw [orderPatch_self orig { doc with id := orig.id, updatedAt := now } rfl] at hf
    exact ⟨_, hf, hst⟩
  · rcases hc with hc | ⟨o, ho, hos⟩
    · exact absurd hc hid
    · have hoid : o.id = id := orderFindById_id ho
      rw [ho] at hf
      have hne : ¬ o.id = doc.id := by
        rw [hoid, hdoc, hi]
        exact fun e => hid e.symm
      simp only [Option.map_some', hne, if_false] at hf
      exact ⟨o, hf, hos⟩

theorem closedOrder_of_orders_eq {s s1 : Store} (id : ObjectId) (h : s1.orders = s.orders)
    (hc : s.closedOrder id) : s1.closedOrder id := by
  obtain ⟨o, ho, hos⟩ := hc
  exact ⟨o, by unfold Order.findById at ho ⊢; rw [h]; exact ho, hos⟩

theorem closedOrder_of_orders_append {s s1 : Store} (id : ObjectId) (l : List Order)
    (h : s1.orders = s.orders ++ l) (hc : s.closedOrder id) : s1.closedOrder id := by
  obtain ⟨o, ho, hos⟩ := hc
  refine ⟨o, ?_, hos⟩
  unfold Order.findById at ho ⊢
  rw [h]
  exact find_append_some _ _ _ _ ho

theorem cancelOrder_result (s : Store) (user i : ObjectId) (now : Nat) :
    ((cancelOrder s user i now).1 = s ∧ (cancelOrder s user i now).2.status ≠ 200) ∨
    ∃ o s1 d, Order.findById s i = some o ∧
      Order.save s o { o with status := "cancelled" } now = .ok (s1, d) ∧
      (cancelOrder s user i now).1.orders = s1.orders := by
  unfold cancelOrder
  split
  · exact .inl ⟨rfl, by simp⟩
  · rename_i o hf
    split
    · exact .inl ⟨rfl, by simp⟩
    · split
      · exact .inl ⟨rfl, by simp⟩
      · split
        · exact .inl ⟨rfl, by simp [serverError]⟩
        · rename_i s1 d hsave
          refine .inr ⟨o, s1, d, hf, hsave, ?_⟩
          split
          · rfl
          · simp only []
            split
            · rfl
            · rename_i s2 d2 hsave2
              exact productSave_orders _ _ _ _ _ _ hsave2

theorem cancelOrder_closedOrder (s : Store) (user i : ObjectId) (now : Nat) (id : ObjectId)
    (hc : s.closedOrder id) : (cancelOrder s user i now).1.closedOrder id := by
  rcases cancelOrder_result s user i now with ⟨h, -⟩ | ⟨o, s1, d, hf, hsave, hord⟩
  · rw [h]; exact hc
  · exact closedOrder_of_orders_eq id hord
      (orderSave_closedOrder s s1 o _ d now i id hsave hf rfl (by simp) (.inr hc))

theorem cancelOrder_closes (s : Store) (user id : ObjectId) (now : Nat)
    (h : (cancelOrder s user id now).2.status = 200) :
    (cancelOrder s user id now).1.closedOrder id := by
  rcases cancelOrder_result s user id now with ⟨-, hne⟩ | ⟨o, s1, d, hf, hsave, hord⟩
  · exact absurd h hne
  · exact closedOrder_of_orders_eq id hord
      (orderSave_closedOrder s s1 o _ d now id id hsave hf rfl (by simp) (.inl rfl))

theorem cancelOrder_closed_fails (s : Store) (user id : ObjectId) (now : Nat)
    (hc : s.closedOrder id) : (cancelOrder s user id now).2.status ≠ 200 := by
  obtain ⟨o, ho, hos⟩ := hc
  unfold cancelOrder
  simp only [ho]
  split
  · simp
  · simp [hos]

theorem updateOrderStatus_closedOrder (s : Store) (user i : ObjectId)
    (status : Option String) (now : Nat) (id : ObjectId)
    (hne : i = id → status.getD "pending" ≠ "pending")
    (hc : s.closedOrder id) : (updateOrderStatus s user i status now).1.closedOrder id := by
  unfold updateOrderStatus
  split
  · exact hc
  · rename_i o hf
    split
    · exact hc
    · simp only []
      split
      · exact hc
      · rename_i s1 d hsave
        by_cases hid : i = id
        · have hst : status.getD "pending" ≠ "pending" := hne hid
          refine orderSave_closedOrder s s1 o _ d now i id hsave hf ?_ ?_ (.inl hid)
          · split <;> rfl
          · split <;> exact hst
        · obtain ⟨hfs, -, -, -⟩ := orderSave_findById s s1 o _ d now hsave id
          obtain ⟨o2, ho2, hos2⟩ := hc
          have h2 : o2.id = id := orderFindById_id ho2
          have h1 : o.id = i := orderFindById_id hf
          rw [ho2] at hfs
          have hne2 : ¬ o2.id =
              (if status = some "delivered" then
                { o with status := status.getD "pending", deliveredAt := some now,
                         paymentStatus := "completed" }
              else { o with status := status.getD "pending" }).id := by
            have : (if status = some "delivered" then
                { o with status := status.getD "pending", deliveredAt := some now,
                         paymentStatus := "completed" }
              else { o with status := status.getD "pending" }).id = o.id := by split <;> rfl
            rw [this, h1, h2]
            exact fun e => hid e.symm
          simp only [Option.map_some', hne2, if_false] at hfs
          exact ⟨o2, hfs, hos2⟩

theorem createOrder_closedOrder (s : Store) (user : ObjectId) (body : OrderBody) (now : Nat)
    (id : ObjectId) (hc : s.closedOrder id) : (createOrder s user body now).1.closedOrder id := by
  unfold createOrder
  split
  · exact hc
  · split
    · exact hc
    · simp only []
      split
      · exact hc
      · rename_i s1 order hcr
        have h1 := (orderCreate_orders _ _ _ _ _ _ _ _ _ _ _ hcr).1
        split
        · exact closedOrder_of_orders_append id _ h1 hc
        · rename_i s2 d hsave
          exact closedOrder_of_orders_append id [order]
            ((productSave_orders _ _ _ _ _ _ hsave).trans h1) hc

theorem handle_closedOrder (s : Store) (r : Request) (id : ObjectId)
    (hr : ∀ u n, r ≠ .updateOrderStatus u id (some "pending") n ∧
      r ≠ .updateOrderStatus u id none n) (hc : s.closedOrder id) :
    (handle s r).1.closedOrder id := by
  cases r with
  | createProduct user body now =>
    exact closedOrder_of_orders_eq id (createProduct_orders s user body now) hc
  | updateProduct user i body =>
    exact closedOrder_of_orders_eq id (updateProduct_orders s user i body) hc
  | createOrder user body now => exact createOrder_closedOrder s user body now id hc
  | updateOrderStatus user i status now =>
    refine updateOrderStatus_closedOrder s user i status now id ?_ hc
    rintro rfl
    cases status with
    | none => exact absurd rfl (hr user now).2
    | some st =>
      intro h
      have hst : st = "pending" := h
      subst hst
      exact (hr user now).1 rfl
  | cancelOrder user i now => exact cancelOrder_closedOrder s user i now id hc

theorem cancelSuccesses_closed (id : ObjectId) (rs : List Request) (s : Store)
    (hr : ∀ r ∈ rs, ∀ u n, r ≠ .updateOrderStatus u id (some "pending") n ∧
      r ≠ .updateOrderStatus u id none n) (hc : s.closedOrder id) :
    cancelSuccesses id s rs = 0 := by
  induction rs generalizing s with
  | nil => rfl
  | cons r rs ih =>
    have hrest := ih (handle s r).1 (fun x hx => hr x (List.mem_cons_of_mem _ hx))
      (handle_closedOrder s r id (hr r (List.mem_cons_self _ _)) hc)
    simp only [cancelSuccesses, hrest, add_zero]
    cases r with
    | cancelOrder user i now =>
      simp only [handle]
      split
      · rename_i h
        obtain ⟨rfl, h200⟩ := h
        exact absurd h200 (cancelOrder_closed_fails s user i now hc)
      · rfl
    | _ => rfl

/-- C7 (as amended): while no updateOrderStatus request on the order asks for `pending`
or comes without a status (which makes the order read `pending` again), at most one
cancelOrder call on the order is answered 200 over any sequence of requests, so its
quantity is returned to the stock at most once. -/
theorem cancelOrder_at_most_once (id : ObjectId) (rs : List Request) (s : Store)
    (hr : ∀ r ∈ rs, ∀ u n, r ≠ .updateOrderStatus u id (some "pending") n ∧
      r ≠ .updateOrderStatus u id none n) :
    cancelSuccesses id s rs ≤ 1 := by
  induction rs generalizing s with
  | nil => simp [cancelSuccesses]
  | cons r rs ih =>
    have hr2 : ∀ x ∈ rs, ∀ u n, x ≠ .updateOrderStatus u id (some "pending") n ∧
        x ≠ .updateOrderStatus u id none n :=
      fun x hx => hr x (List.mem_cons_of_mem _ hx)
    have hrest := ih (handle s r).1 hr2
    cases r with
    | cancelOrder user i now =>
      simp only [cancelSuccesses]
      split
      · rename_i h
        obtain ⟨rfl, h200⟩ := h
        simp only [handle] at h200
        have hclosed : (handle s (.cancelOrder user i now)).1.closedOrder i := by
          simp only [handle]
          exact cancelOrder_closes s user i now h200
        rw [cancelSuccesses_closed i rs _ hr2 hclosed]
      · simpa using hrest
    | _ => simpa [cancelSuccesses] using hrest


/-- C7 (as amended) on a run in which the farmer rejects the cancelled order. -/
theorem cancelOrder_at_most_once_witness :
    (∀ r ∈ rejectRequests, ∀ u n, r ≠ .updateOrderStatus u 1 (some "pending") n ∧
        r ≠ .updateOrderStatus u 1 none n) ∧
      cancelSuccesses 1 emptyStore rejectRequests ≤ 1 := by
  have h : ∀ r ∈ rejectRequests, ∀ u n, r ≠ .updateOrderStatus u 1 (some "pending") n ∧
      r ≠ .updateOrderStatus u 1 none n := by
    intro r hr u n
    simp only [rejectRequests, List.mem_cons, List.mem_singleton, List.not_mem_nil,
      or_false] at hr
    rcases hr with rfl | rfl | rfl | rfl | rfl <;> simp
  exact ⟨h, cancelOrder_at_most_once 1 rejectRequests emptyStore h⟩

/-- C7 (counterexample): order 1 reserves 30 of 100 units (stock 70); it is cancelled,
set back to `pending` by the farmer, and cancelled again. Both cancelOrder calls are
answered 200 and the stock ends at 130. The same happens when the farmer's request
carries no status at all. -/
theorem cancelOrder_twice_after_reopen :
    (cancelSuccesses 1 emptyStore reopenRequests = 2 ∧
      (runAll emptyStore reopenRequests).products.map (fun p => p.quantity) = [130]) ∧
    (cancelSuccesses 1 emptyStore omitStatusRequests = 2 ∧
      (runAll emptyStore omitStatusRequests).products.map (fun p => p.quantity) = [130]) := by
  refine ⟨⟨?_, ?_⟩, ⟨?_, ?_⟩⟩ <;>
  norm_num +decide [cancelSuccesses, runAll, reopenRequests, omitStatusRequests, handle,
    emptyStore, createProduct,
    Product.create, createOrder, cancelOrder, updateOrderStatus, Order.save, Order.findById,
    Order.patch, Product.findById, Order.create, Order.validate, Product.save,
    Product.validate, Product.patch, paymentMethodEnum, orderStatusEnum, paymentStatusEnum,
    productStatusEnum]


/-! ## cancelOrder -/

theorem cancelOrder_ok (s : Store) (id : ObjectId) (now : Nat) (o : Order) (p : Product)
    (hfind : Order.findById s id = some o) (hpending : o.status = "pending")
    (hvalid : o.validate = true) (hprod : Product.findById s o.product = some p)
    (hpvalid : p.validate = true) :
    cancelOrder s o.buyer id now =
      ({ products := s.products.map (fun x =>
            if x.id = o.product then
              Product.patch p
                { p with quantity := p.quantity + o.quantity, status := "active",
                         updatedAt := now } x
            else x),
         orders := s.orders.map (fun x =>
            if x.id = id then Order.patch o { o with status := "cancelled", updatedAt := now } x
            else x),
         nextId := s.nextId },
       { status := 200, success := true, message := "Order cancelled successfully",
         data := some { o with status := "cancelled", updatedAt := now } }) := by
  have hid : o.id = id := orderFindById_id hfind
  have hpid : p.id = o.product := productFindById_id hprod
  obtain ⟨h1, h2, -, h4, h5⟩ := (orderValidate_iff o).1 hvalid
  obtain ⟨hp0, hpq, -⟩ := (productValidate_iff p).1 hpvalid
  have hov : Order.validate { o with status := "cancelled" } = true := by
    rw [orderValidate_iff]
    exact ⟨h1, h2, by simp [orderStatusEnum], h4, h5⟩
  have hpv : Product.validate
      { p with quantity := p.quantity + o.quantity, status := "active" } = true := by
    rw [productValidate_iff]
    exact ⟨hp0, by simp only []; linarith, by simp [productStatusEnum]⟩
  have hprod1 : ∀ l : List Order,
      Product.findById { s with orders := l } o.product = some p := fun _ => hprod
  unfold cancelOrder
  simp only [hfind, ne_eq, not_true_eq_false, if_false, hpending, orderSave_ok _ _ _ _ hov,
    hprod1, Product.save, hpv, if_true]
  simp only [hid, hpid]

/-- C8 (as amended): cancelOrder by the buyer of a pending order of natural-number
quantity q, whose product exists, satisfies the product schema and has a
natural-number stock S with S + q ≤ 2^53, is answered 200; the order is stored with
status cancelled and its fixed part unchanged, the product's stock is S + q, and every
other order and product is as before. -/
theorem cancelOrder_releases_stock (s : Store) (id : ObjectId) (now : Nat) (o : Order)
    (p : Product) (S q : ℕ) (hfind : Order.findById s id = some o)
    (hpending : o.status = "pending") (hvalid : o.validate = true)
    (hprod : Product.findById s o.product = some p) (hpvalid : p.validate = true)
    (hS : p.quantity = S) (hq : o.quantity = q) (_hS53 : S + q ≤ 2 ^ 53) :
    ∃ o1 p1,
      (cancelOrder s o.buyer id now).2 =
        { status := 200, success := true, message := "Order cancelled successfully",
          data := some o1 } ∧
      Order.findById (cancelOrder s o.buyer id now).1 id = some o1 ∧
      o1.status = "cancelled" ∧ o1.fixedPart = o.fixedPart ∧
      Product.findById (cancelOrder s o.buyer id now).1 o.product = some p1 ∧
      p1.quantity = ((S + q : ℕ) : ℚ) ∧
      (cancelOrder s o.buyer id now).1.orders.length = s.orders.length ∧
      (∀ (k : Nat) (x : Order), s.orders[k]? = some x → x.id ≠ id →
        (cancelOrder s o.buyer id now).1.orders[k]? = some x) ∧
      (cancelOrder s o.buyer id now).1.products.length = s.products.length ∧
      (∀ (k : Nat) (x : Product), s.products[k]? = some x → x.id ≠ o.product →
        (cancelOrder s o.buyer id now).1.products[k]? = some x) := by
  have hid : o.id = id := orderFindById_id hfind
  have hpid : p.id = o.product := productFindById_id hprod
  rw [cancelOrder_ok s id now o p hfind hpending hvalid hprod hpvalid]
  refine ⟨{ o with status := "cancelled", updatedAt := now },
    { p with quantity := p.quantity + o.quantity, status := "active", updatedAt := now },
    rfl, ?_, rfl, rfl, ?_, ?_, by simp, ?_, by simp, ?_⟩
  · unfold Order.findById at hfind ⊢
    simp only []
    rw [find_map_id Order.id _ (fun x => by split <;> simp [orderPatch_id]), hfind]
    simp only [Option.map_some', hid, if_true]
    rw [orderPatch_self o _ hid.symm]
  · unfold Product.findById at hprod ⊢
    simp only []
    rw [find_map_id Product.id _ (fun x => by split <;> simp [productPatch_id]), hprod]
    simp only [Option.map_some', hpid, if_true]
    rw [productPatch_self p _ hpid.symm]
  · show p.quantity + o.quantity = _
    rw [hS, hq, Nat.cast_add]
  · intro k x hx hne
    exact getElem?_map_other Order.id _ id s.orders k x hx hne
  · intro k x hx hne
    exact getElem?_map_other Product.id _ o.product s.products k x hx hne

/-- C8 (as amended) on the end-to-end store: cancelling order 1 (30 units) raises the
stock from 70 to 100. -/
theorem cancelOrder_releases_stock_witness :
    ∃ o1 p1,
      (cancelOrder pendingStore 7 1 6).2 =
        { status := 200, success := true, message := "Order cancelled successfully",
          data := some o1 } ∧
      Order.findById (cancelOrder pendingStore 7 1 6).1 1 = some o1 ∧
      o1.status = "cancelled" ∧
      Product.findById (cancelOrder pendingStore 7 1 6).1 0 = some p1 ∧
      p1.quantity = 100 := by
  obtain ⟨o1, p1, h1, h2, h3, -, h5, h6, -⟩ :=
    cancelOrder_releases_stock pendingStore 1 6
      { id := 1, buyer := 7, farmer := 1, product := 0, quantity := 30, price := 10,
        totalAmount := 300, status := "pending", paymentMethod := "cash",
        paymentStatus := "pending", createdAt := 5, updatedAt := 5, deliveredAt := none }
      { id := 0, farmer := 1, price := 10, quantity := 70, status := "active",
        createdAt := 0, updatedAt := 5 } 70 30
      rfl rfl (by decide) rfl (by decide) (by norm_num) (by norm_num) (by norm_num)
  exact ⟨o1, p1, h1, h2, h3, h5, by rw [h6]; norm_num⟩

/-- C8 (counterexample): order 1 (30 units) is pending and its product exists with stock
70, but the farmer's `{ "$inc": { "price": -20 } }` has left its price at -10. The
buyer's cancelOrder is answered 500 "Server error", the stock stays 70, and the order
is stored as cancelled. -/
theorem cancelOrder_fails_on_negative_price :
    (Order.findById negativePricePendingStore 1).map (fun o => (o.status, o.quantity)) =
        some ("pending", 30) ∧
      (Product.findById negativePricePendingStore 0).map (fun p => (p.price, p.quantity)) =
        some (-10, 70) ∧
      (cancelOrder negativePricePendingStore 7 1 3).2 = serverError ∧
      (Product.findById (cancelOrder negativePricePendingStore 7 1 3).1 0).map
        (fun p => p.quantity) = some 70 ∧
      (Order.findById (cancelOrder negativePricePendingStore 7 1 3).1 1).map
        (fun o => o.status) = some "cancelled" := by
  refine ⟨?_, ?_, ?_, ?_, ?_⟩ <;>
  norm_num +decide [negativePricePendingStore, negativePriceAfterOrderRequests, runAll,
    handle, emptyStore, createProduct, Product.create, updateProduct,
    Product.findByIdAndUpdate, ProductUpdate.validate, ProductUpdate.conflict,
    ProductUpdate.apply, NumericOp.apply, createOrder, cancelOrder, Product.findById,
    Order.findById, Order.create, Order.save, Order.validate, Order.patch, Product.save,
    Product.validate, Product.patch, serverError, paymentMethodEnum, orderStatusEnum,
    paymentStatusEnum, productStatusEnum]

/-- C9: cancelOrder by the buyer of an order whose status is not pending is answered 400
"Cannot cancel order in current status"; the store (the order and every product's
stock) is unchanged. -/
theorem cancelOrder_not_pending (s : Store) (id : ObjectId) (now : Nat) (o : Order)
    (hfind : Order.findById s id = some o) (hst : o.status ≠ "pending") :
    cancelOrder s o.buyer id now =
      (s, { status := 400, success := false,
            message := "Cannot cancel order in current status", data := none }) := by
  unfold cancelOrder
  simp only [hfind, ne_eq, not_true_eq_false, if_false, hst, not_false_eq_true, if_true]

/-- C9 on a delivered order. -/
theorem cancelOrder_not_pending_witness :
    cancelOrder deliveredStore 7 1 10 =
      (deliveredStore,
       { status := 400, success := false, message := "Cannot cancel order in current status",
         data := none }) :=
  cancelOrder_not_pending deliveredStore 1 10
    { id := 1, buyer := 7, farmer := 1, product := 0, quantity := 30, price := 10,
      totalAmount := 300, status := "delivered", paymentMethod := "cash",
      paymentStatus := "completed", createdAt := 5, updatedAt := 9, deliveredAt := some 9 }
    rfl (by decide)

/-- C10: updateOrderStatus by a user who is not the order's farmer is answered 401 "Not
authorized to update this order" whatever status is requested; the store (so the
order's status, deliveredAt and paymentStatus) is unchanged. -/
theorem updateOrderStatus_unauthorized (s : Store) (user id : ObjectId)
    (status : Option String) (now : Nat) (o : Order) (hfind : Order.findById s id = some o) (hne : user ≠ o.farmer) :
    updateOrderStatus s user id status now =
      (s, { status := 401, success := false, message := "Not authorized to update this order",
            data := none }) := by
  have h : o.farmer ≠ user := fun e => hne e.symm
  unfold updateOrderStatus
  simp only [hfind, ne_eq, h, not_false_eq_true, if_true]

/-- C10 on the pending order of the end-to-end store: the buyer asks for `delivered`. -/
theorem updateOrderStatus_unauthorized_witness :
    updateOrderStatus pendingStore 7 1 (some "delivered") 6 =
      (pendingStore,
       { status := 401, success := false, message := "Not authorized to update this order",
         data := none }) :=
  updateOrderStatus_unauthorized pendingStore 7 1 (some "delivered") 6
    { id := 1, buyer := 7, farmer := 1, product := 0, quantity := 30, price := 10,
      totalAmount := 300, status := "pending", paymentMethod := "cash",
      paymentStatus := "pending", createdAt := 5, updatedAt := 5, deliveredAt := none }
    rfl (by decide)


/-! ## Storage failures in cancelOrder and createOrder -/

theorem createOrderWith_no_faults (s : Store) (user : ObjectId) (body : OrderBody) (now : Nat) :
    createOrderWith ⟨false, false⟩ s user body now = createOrder s user body now := by
  simp [createOrderWith, createOrder, Order.createWith, Product.saveWith]

theorem cancelOrderWith_no_faults (s : Store) (user id : ObjectId) (now : Nat) :
    cancelOrderWith ⟨false, false⟩ s user id now = cancelOrder s user id now := by
  simp [cancelOrderWith, cancelOrder, Order.saveWith, Product.saveWith]

theorem cancelOrderWith_after_order_write (f : Faults) (s : Store) (id : ObjectId) (now : Nat)
    (o : Order) (hfind : Order.findById s id = some o) (hpending : o.status = "pending")
    (hvalid : o.validate = true) (hw : f.orderWrite = false) :
    cancelOrderWith f s o.buyer id now =
      match Product.findById s o.product with
      | none =>
        ({ s with orders := s.orders.map (fun x =>
              if x.id = id then Order.patch o { o with status := "cancelled", updatedAt := now } x
              else x) },
         { status := 200, success := true, message := "Order cancelled successfully",
           data := some { o with status := "cancelled", updatedAt := now } })
      | some product =>
        match Product.saveWith f.productWrite
            { s with orders := s.orders.map (fun x =>
                if x.id = id then
                  Order.patch o { o with status := "cancelled", updatedAt := now } x
                else x) }
            product
            { product with quantity := product.quantity + o.quantity, status := "active" }
            now with
        | .error _ =>
          ({ s with orders := s.orders.map (fun x =>
                if x.id = id then
                  Order.patch o { o with status := "cancelled", updatedAt := now } x
                else x) },
           serverError)
        | .ok (s2, _) =>
          (s2, { status := 200, success := true, message := "Order cancelled successfully",
                 data := some { o with status := "cancelled", updatedAt := now } }) := by
  have hid : o.id = id := orderFindById_id hfind
  obtain ⟨h1, h2, -, h4, h5⟩ := (orderValidate_iff o).1 hvalid
  have hov : Order.validate { o with status := "cancelled" } = true := by
    rw [orderValidate_iff]
    exact ⟨h1, h2, by simp [orderStatusEnum], h4, h5⟩
  have hprod1 : ∀ l : List Order,
      Product.findById { s with orders := l } o.product = Product.findById s o.product :=
    fun _ => rfl
  unfold cancelOrderWith
  simp only [hfind, ne_eq, not_true_eq_false, if_false, hpending, Order.saveWith, hw,
    Bool.false_eq_true, orderSave_ok _ _ _ _ hov, hprod1]
  simp only [hid]

/-- C11 (as amended): cancelOrder writes the cancellation before it attempts the release.
For a pending order cancelled by its buyer, with the order write accepted: if the
product no longer exists the request is answered 200, the order is stored as cancelled
and no product is changed; if the product exists and its write is rejected the request
is answered 500, no product is changed, and the order is already stored as cancelled. -/
theorem cancelOrder_persists_before_release (f : Faults) (s : Store) (id : ObjectId)
    (now : Nat) (o : Order) (hfind : Order.findById s id = some o)
    (hpending : o.status = "pending") (hvalid : o.validate = true)
    (hw : f.orderWrite = false) :
    (Product.findById s o.product = none →
      (cancelOrderWith f s o.buyer id now).2 =
        { status := 200, success := true, message := "Order cancelled successfully",
          data := some { o with status := "cancelled", updatedAt := now } } ∧
      Order.findById (cancelOrderWith f s o.buyer id now).1 id =
        some { o with status := "cancelled", updatedAt := now } ∧
      (cancelOrderWith f s o.buyer id now).1.products = s.products) ∧
    (∀ p, Product.findById s o.product = some p → f.productWrite = true →
      (cancelOrderWith f s o.buyer id now).2 = serverError ∧
      Order.findById (cancelOrderWith f s o.buyer id now).1 id =
        some { o with status := "cancelled", updatedAt := now } ∧
      (cancelOrderWith f s o.buyer id now).1.products = s.products) := by
  have hkey := cancelOrderWith_after_order_write f s id now o hfind hpending hvalid hw
  have hfo := findById_map_patch_self s id o { o with status := "cancelled", updatedAt := now }
    hfind rfl
  constructor
  · intro hnone
    rw [hkey, hnone]
    exact ⟨rfl, hfo, rfl⟩
  · intro p hp hpw
    rw [hkey, hp]
    simp only [Product.saveWith, hpw, if_true]
    exact ⟨trivial, hfo, trivial⟩

/-- C11 (as amended) on the two sample stores: order 1 of `orphanStore` has no product,
and the product write of the cancellation in `pendingStore` is rejected. -/
theorem cancelOrder_persists_before_release_witness :
    ((cancelOrderWith ⟨false, false⟩ orphanStore 7 1 6).2.status = 200 ∧
      (Order.findById (cancelOrderWith ⟨false, false⟩ orphanStore 7 1 6).1 1).map
        (fun o => o.status) = some "cancelled") ∧
    ((cancelOrderWith ⟨false, true⟩ pendingStore 7 1 6).2 = serverError ∧
      (Order.findById (cancelOrderWith ⟨false, true⟩ pendingStore 7 1 6).1 1).map
        (fun o => o.status) = some "cancelled" ∧
      (cancelOrderWith ⟨false, true⟩ pendingStore 7 1 6).1.products = pendingStore.products) := by
  have h1 := (cancelOrder_persists_before_release ⟨false, false⟩ orphanStore 1 6
    { id := 1, buyer := 7, farmer := 1, product := 0, quantity := 30, price := 10,
      totalAmount := 300, status := "pending", paymentMethod := "cash",
      paymentStatus := "pending", createdAt := 5, updatedAt := 5, deliveredAt := none }
    rfl rfl (by decide) rfl).1 rfl
  have h2 := (cancelOrder_persists_before_release ⟨false, true⟩ pendingStore 1 6
    { id := 1, buyer := 7, farmer := 1, product := 0, quantity := 30, price := 10,
      totalAmount := 300, status := "pending", paymentMethod := "cash",
      paymentStatus := "pending", createdAt := 5, updatedAt := 5, deliveredAt := none }
    rfl rfl (by decide) rfl).2
      { id := 0, farmer := 1, price := 10, quantity := 70, status := "active",
        createdAt := 0, updatedAt := 5 } rfl rfl
  refine ⟨⟨?_, ?_⟩, h2.1, ?_, h2.2.2⟩
  · rw [h1.1]
  · rw [h1.2.1]; rfl
  · rw [h2.2.1]; rfl

/-- C11 (counterexample): order 1 is pending and its product has been deleted, so the
release cannot be made; cancelOrder is answered 200 and the order is stored as
cancelled. When the product exists and its write is rejected, the answer is 500, the
stock stays 70 and the order is stored as cancelled, not pending. -/
theorem cancelOrder_without_release :
    Product.findById orphanStore 0 = none ∧
      (cancelOrder orphanStore 7 1 6).2.status = 200 ∧
      (Order.findById (cancelOrder orphanStore 7 1 6).1 1).map (fun o => o.status) =
        some "cancelled" ∧
      (cancelOrderWith ⟨false, true⟩ pendingStore 7 1 6).2.status = 500 ∧
      (Order.findById (cancelOrderWith ⟨false, true⟩ pendingStore 7 1 6).1 1).map
        (fun o => o.status) = some "cancelled" ∧
      (Product.findById (cancelOrderWith ⟨false, true⟩ pendingStore 7 1 6).1 0).map
        (fun p => p.quantity) = some 70 := by
  refine ⟨rfl, ?_, ?_, ?_, ?_, ?_⟩ <;>
  norm_num +decide [cancelOrder, cancelOrderWith, orphanStore, pendingStore, Order.findById,
    Product.findById, Order.save, Order.saveWith, Product.saveWith, Order.validate,
    Order.patch, serverError, paymentMethodEnum, orderStatusEnum, paymentStatusEnum]


theorem orderCreateWith_products (fail : Bool) (s s1 : Store) (buyer farmer product : ObjectId)
    (quantity price totalAmount : ℚ) (paymentMethod : String) (now : Nat) (d : Order)
    (h : Order.createWith fail s buyer farmer product quantity price totalAmount paymentMethod
      now = .ok (s1, d)) :
    fail = false ∧ s1.products = s.products ∧ s1.orders = s.orders ++ [d] := by
  unfold Order.createWith at h
  cases fail with
  | true => simp at h
  | false =>
    simp only [Bool.false_eq_true, if_false] at h
    refine ⟨rfl, ?_, (orderCreate_orders _ _ _ _ _ _ _ _ _ _ _ h).1⟩
    unfold Order.create at h
    simp only [] at h
    split at h
    · simp only [Except.ok.injEq, Prod.mk.injEq] at h
      obtain ⟨rfl, -⟩ := h
      rfl
    · simp at h

/-- C12 (as amended): createOrder inserts the order before it writes the stock. If the
insert of the order is rejected the request fails and the store is unchanged; in no
failing run is any product changed, so a failing run never leaves a stock decrement
behind; the orders of a failing run are the old ones, followed by the new order when
its insert was accepted. -/
theorem createOrder_writes_order_first (f : Faults) (s : Store) (user : ObjectId)
    (body : OrderBody) (now : Nat) :
    (f.orderWrite = true →
      (createOrderWith f s user body now).1 = s ∧
      (createOrderWith f s user body now).2.status ≠ 201) ∧
    ((createOrderWith f s user body now).2.status ≠ 201 →
      (createOrderWith f s user body now).1.products = s.products ∧
      ((createOrderWith f s user body now).1.orders = s.orders ∨
        (f.orderWrite = false ∧
          ∃ o, (createOrderWith f s user body now).1.orders = s.orders ++ [o]))) := by
  constructor
  · intro hf
    unfold createOrderWith
    split
    · exact ⟨rfl, by simp⟩
    · split
      · exact ⟨rfl, by simp⟩
      · simp only [Order.createWith, hf, if_true]
        exact ⟨trivial, by simp [serverError]⟩
  · unfold createOrderWith
    split
    · exact fun _ => ⟨rfl, .inl rfl⟩
    · split
      · exact fun _ => ⟨rfl, .inl rfl⟩
      · simp only []
        split
        · exact fun _ => ⟨rfl, .inl rfl⟩
        · rename_i s1 order hc
          obtain ⟨hf, hp, ho⟩ := orderCreateWith_products _ _ _ _ _ _ _ _ _ _ _ _ hc
          split
          · exact fun _ => ⟨hp, .inr ⟨hf, order, ho⟩⟩
          · intro h
            simp at h

/-- C12 (as amended) on the end-to-end store with the order insert rejected, and with
the stock write rejected. -/
theorem createOrder_writes_order_first_witness :
    ((createOrderWith ⟨true, false⟩ demoStore 7 ⟨0, 30, "cash"⟩ 5).1 = demoStore ∧
      (createOrderWith ⟨true, false⟩ demoStore 7 ⟨0, 30, "cash"⟩ 5).2.status ≠ 201) ∧
    (createOrderWith ⟨false, true⟩ demoStore 7 ⟨0, 30, "cash"⟩ 5).1.products =
      demoStore.products := by
  have h500 : (createOrderWith ⟨false, true⟩ demoStore 7 ⟨0, 30, "cash"⟩ 5).2.status ≠ 201 := by
    norm_num +decide [createOrderWith, demoStore, Product.findById, Order.createWith,
      Order.create, Order.validate, Product.saveWith, serverError, paymentMethodEnum,
      orderStatusEnum, paymentStatusEnum]
  exact ⟨(createOrder_writes_order_first ⟨true, false⟩ demoStore 7 ⟨0, 30, "cash"⟩ 5).1 rfl,
    ((createOrder_writes_order_first ⟨false, true⟩ demoStore 7 ⟨0, 30, "cash"⟩ 5).2 h500).1⟩

/-- C12 (counterexample): stock 100, an order for 30 whose insert is accepted and whose
stock write is rejected. The request fails with 500, the order of 30 is stored and the
stock is still 100. -/
theorem createOrder_order_without_decrement :
    (createOrderWith ⟨false, true⟩ demoStore 7 ⟨0, 30, "cash"⟩ 5).2.status = 500 ∧
      (createOrderWith ⟨false, true⟩ demoStore 7 ⟨0, 30, "cash"⟩ 5).1.orders.map
        (fun o => (o.product, o.quantity, o.status)) = [(0, 30, "pending")] ∧
      (createOrderWith ⟨false, true⟩ demoStore 7 ⟨0, 30, "cash"⟩ 5).1.products.map
        (fun p => p.quantity) = [100] := by
  refine ⟨?_, ?_, ?_⟩ <;>
  norm_num +decide [createOrderWith, demoStore, Product.findById, Order.createWith,
    Order.create, Order.validate, Product.saveWith, serverError, paymentMethodEnum,
    orderStatusEnum, paymentStatusEnum]


/-! ## Quantities below one, and product status -/

/-- C13 (as amended): a request whose quantity is below 1 (zero, negative, or a fraction
below 1) on an existing product fails and leaves the store unchanged: with 400
"Insufficient quantity available" when the quantity exceeds the stock, and otherwise
with the 500 "Server error" caused by the `min: 1` validator of the order schema. -/
theorem createOrder_quantity_below_one (s : Store) (user : ObjectId) (body : OrderBody)
    (now : Nat) (p : Product) (hfind : Product.findById s body.product = some p)
    (hq : body.quantity < 1) :
    (createOrder s user body now).1 = s ∧
      (createOrder s user body now).2 =
        (if p.quantity < body.quantity then
          { status := 400, success := false, message := "Insufficient quantity available",
            data := none }
        else serverError) := by
  unfold createOrder
  simp only [hfind]
  by_cases hlt : p.quantity < body.quantity
  · simp only [hlt, if_true, and_self]
  · have hv : Order.validate
        { id := s.nextId, buyer := user, farmer := p.farmer, product := body.product,
          quantity := body.quantity, price := p.price,
          totalAmount := p.price * body.quantity, status := "pending",
          paymentMethod := body.paymentMethod, paymentStatus := "pending",
          createdAt := now, updatedAt := now, deliveredAt := none } = false := by
      rw [Bool.eq_false_iff]
      intro hc
      rw [orderValidate_iff] at hc
      exact absurd hc.1 (not_le.mpr hq)
    simp only [hlt, if_false, Order.create, hv, Bool.false_eq_true, and_self]

/-- C13 (as amended) on the end-to-end store: quantity 0 is refused by the validator. -/
theorem createOrder_quantity_below_one_witness :
    (createOrder demoStore 7 ⟨0, 0, "cash"⟩ 5).1 = demoStore ∧
      (createOrder demoStore 7 ⟨0, 0, "cash"⟩ 5).2 = serverError := by
  have h := createOrder_quantity_below_one demoStore 7 ⟨0, 0, "cash"⟩ 5
    { id := 0, farmer := 1, price := 10, quantity := 100, status := "active",
      createdAt := 0, updatedAt := 0 } rfl (by norm_num)
  refine ⟨h.1, ?_⟩
  rw [h.2]
  norm_num

/-- C13 (counterexample): stock 100 and a request for 3/2, which is not an integer. The
request is answered 201, an order of quantity 3/2 is stored and the stock is 197/2. -/
theorem createOrder_accepts_fraction :
    (createOrder demoStore 7 ⟨0, 3 / 2, "cash"⟩ 5).2.status = 201 ∧
      (createOrder demoStore 7 ⟨0, 3 / 2, "cash"⟩ 5).1.orders.map (fun o => o.quantity) =
        [3 / 2] ∧
      (createOrder demoStore 7 ⟨0, 3 / 2, "cash"⟩ 5).1.products.map (fun p => p.quantity) =
        [197 / 2] := by
  refine ⟨?_, ?_, ?_⟩ <;>
  norm_num +decide [createOrder, demoStore, Product.findById, Order.create, Order.validate,
    Product.save, Product.validate, Product.patch, paymentMethodEnum, orderStatusEnum,
    paymentStatusEnum, productStatusEnum]

theorem findById_after_cancelOrder (s : Store) (id : ObjectId) (now : Nat) (o : Order)
    (p : Product) (hfind : Order.findById s id = some o) (hpending : o.status = "pending")
    (hvalid : o.validate = true) (hprod : Product.findById s o.product = some p)
    (hpvalid : p.validate = true) :
    Product.findById (cancelOrder s o.buyer id now).1 o.product =
      some { p with quantity := p.quantity + o.quantity, status := "active",
                    updatedAt := now } := by
  have hpid : p.id = o.product := productFindById_id hprod
  rw [cancelOrder_ok s id now o p hfind hpending hvalid hprod hpvalid]
  unfold Product.findById at hprod ⊢
  simp only []
  rw [find_map_id Product.id _ (fun x => by split <;> simp [productPatch_id]), hprod]
  simp only [Option.map_some', hpid, if_true]
  rw [productPatch_self p _ hpid.symm]

/-- C14 (as amended): after a successful createOrder on a product whose status was
active, the status is sold if the new stock is 0 and active otherwise; after a
successful cancelOrder on an existing product whose status was not inactive, the new
stock is positive and the status is active. -/
theorem product_status_follows_stock :
    (∀ (s : Store) (user : ObjectId) (body : OrderBody) (now : Nat) (p : Product),
      Product.findById s body.product = some p → p.validate = true →
      body.paymentMethod ∈ paymentMethodEnum → 1 ≤ body.quantity →
      body.quantity ≤ p.quantity → p.status = "active" →
      ∃ p1, Product.findById (createOrder s user body now).1 body.product = some p1 ∧
        p1.quantity = p.quantity - body.quantity ∧
        p1.status = if p1.quantity = 0 then "sold" else "active") ∧
    (∀ (s : Store) (id : ObjectId) (now : Nat) (o : Order) (p : Product),
      Order.findById s id = some o → o.status = "pending" → o.validate = true →
      Product.findById s o.product = some p → p.validate = true → p.status ≠ "inactive" →
      ∃ p1, Product.findById (cancelOrder s o.buyer id now).1 o.product = some p1 ∧
        p1.quantity = p.quantity + o.quantity ∧ 0 < p1.quantity ∧ p1.status = "active") := by
  constructor
  · intro s user body now p hfind hvalid hpay hq1 hq2 hact
    refine ⟨_, findById_after_createOrder s user body now p hfind hvalid hpay hq1 hq2, rfl, ?_⟩
    simp only [hact]
  · intro s id now o p hfind hpending hvalid hprod hpvalid _
    refine ⟨_, findById_after_cancelOrder s id now o p hfind hpending hvalid hprod hpvalid,
      rfl, ?_, rfl⟩
    have h1 := ((orderValidate_iff o).1 hvalid).1
    have h2 := ((productValidate_iff p).1 hpvalid).2.1
    show 0 < p.quantity + o.quantity
    linarith

/-- C14 (as amended) on the end-to-end store: an order for all 100 units leaves the
product sold, and cancelling order 1 of `pendingStore` leaves it active with stock 100. -/
theorem product_status_follows_stock_witness :
    (∃ p1, Product.findById (createOrder demoStore 7 ⟨0, 100, "cash"⟩ 5).1 0 = some p1 ∧
      p1.quantity = 0 ∧ p1.status = "sold") ∧
    (∃ p1, Product.findById (cancelOrder pendingStore 7 1 6).1 0 = some p1 ∧
      p1.quantity = 100 ∧ p1.status = "active") := by
  obtain ⟨p1, h1, h2, h3⟩ := product_status_follows_stock.1 demoStore 7 ⟨0, 100, "cash"⟩ 5
    { id := 0, farmer := 1, price := 10, quantity := 100, status := "active",
      createdAt := 0, updatedAt := 0 }
    rfl (by decide) (by decide) (by norm_num) (by norm_num) rfl
  obtain ⟨p2, k1, k2, -, k4⟩ := product_status_follows_stock.2 pendingStore 1 6
    { id := 1, buyer := 7, farmer := 1, product := 0, quantity := 30, price := 10,
      totalAmount := 300, status := "pending", paymentMethod := "cash",
      paymentStatus := "pending", createdAt := 5, updatedAt := 5, deliveredAt := none }
    { id := 0, farmer := 1, price := 10, quantity := 70, status := "active",
      createdAt := 0, updatedAt := 5 }
    rfl rfl (by decide) rfl (by decide) (by decide)
  have h20 : p1.quantity = 0 := by rw [h2]; norm_num
  refine ⟨⟨p1, h1, h20, ?_⟩, ⟨p2, k1, ?_, k4⟩⟩
  · rw [h3, h20]; simp
  · rw [k2]; norm_num

/-- C14 (counterexample): product 0 has been set inactive by its farmer. Cancelling the
pending order 1 is answered 200 and leaves the product active; an order for the whole
stock of 70 is answered 201 and leaves the product sold. -/
theorem inactive_product_not_kept :
    (Product.findById inactiveStore 0).map (fun p => p.status) = some "inactive" ∧
      (cancelOrder inactiveStore 7 1 6).2.status = 200 ∧
      (Product.findById (cancelOrder inactiveStore 7 1 6).1 0).map (fun p => p.status) =
        some "active" ∧
      (createOrder inactiveStore 8 ⟨0, 70, "cash"⟩ 6).2.status = 201 ∧
      (Product.findById (createOrder inactiveStore 8 ⟨0, 70, "cash"⟩ 6).1 0).map
        (fun p => p.status) = some "sold" := by
  refine ⟨?_, ?_, ?_, ?_, ?_⟩ <;>
  norm_num +decide [inactiveStore, pendingStore, updateProduct, Product.findByIdAndUpdate,
    ProductUpdate.validate, ProductUpdate.apply, cancelOrder, createOrder, Order.findById,
    Product.findById, Order.save, Order.create, Order.validate, Order.patch, Product.save,
    Product.validate, Product.patch, paymentMethodEnum, orderStatusEnum, paymentStatusEnum,
    productStatusEnum]


/-! ## Order, cancel, order again -/

/-- Order, cancel, order again, for rational quantities in exact arithmetic: on a valid
product with stock S, createOrder for q with 1 ≤ q ≤ S leaves stock S - q, cancelOrder
of the new order by the same buyer is answered 200 and leaves the stock S, and a
following createOrder for the whole quantity S is answered 201. -/
theorem createOrder_cancel_createOrder (s : Store) (user user3 : ObjectId)
    (body : OrderBody) (pay3 : String) (now now2 now3 : Nat) (p : Product)
    (hfind : Product.findById s body.product = some p) (hvalid : p.validate = true)
    (hpay : body.paymentMethod ∈ paymentMethodEnum) (hpay3 : pay3 ∈ paymentMethodEnum)
    (hq1 : 1 ≤ body.quantity) (hq2 : body.quantity ≤ p.quantity)
    (hfresh : Order.findById s s.nextId = none) :
    ∃ o p1 p2,
      (createOrder s user body now).2.data = some o ∧
      Product.findById (createOrder s user body now).1 body.product = some p1 ∧
      p1.quantity = p.quantity - body.quantity ∧
      (cancelOrder (createOrder s user body now).1 user o.id now2).2.status = 200 ∧
      Product.findById (cancelOrder (createOrder s user body now).1 user o.id now2).1
        body.product = some p2 ∧
      p2.quantity = p.quantity ∧
      (createOrder (cancelOrder (createOrder s user body now).1 user o.id now2).1 user3
        ⟨body.product, p.quantity, pay3⟩ now3).2.status = 201 := by
  obtain ⟨hp0, hpq, hps⟩ := (productValidate_iff p).1 hvalid
  have hok := createOrder_ok s user body now p hfind hvalid hpay hq1 hq2
  have hp1 := findById_after_createOrder s user body now p hfind hvalid hpay hq1 hq2
  have hdata : (createOrder s user body now).2.data =
      some { id := s.nextId, buyer := user, farmer := p.farmer, product := body.product,
             quantity := body.quantity, price := p.price,
             totalAmount := p.price * body.quantity, status := "pending",
             paymentMethod := body.paymentMethod, paymentStatus := "pending",
             createdAt := now, updatedAt := now, deliveredAt := none } := by rw [hok]
  have hfo : Order.findById (createOrder s user body now).1 s.nextId =
      some { id := s.nextId, buyer := user, farmer := p.farmer, product := body.product,
             quantity := body.quantity, price := p.price,
             totalAmount := p.price * body.quantity, status := "pending",
             paymentMethod := body.paymentMethod, paymentStatus := "pending",
             createdAt := now, updatedAt := now, deliveredAt := none } := by
    rw [hok]
    unfold Order.findById at hfresh ⊢
    simp [List.find?_append, hfresh]
  have hov : Order.validate
      { id := s.nextId, buyer := user, farmer := p.farmer, product := body.product,
        quantity := body.quantity, price := p.price,
        totalAmount := p.price * body.quantity, status := "pending",
        paymentMethod := body.paymentMethod, paymentStatus := "pending",
        createdAt := now, updatedAt := now, deliveredAt := none } = true := by
    rw [orderValidate_iff]
    exact ⟨hq1, hp0, by simp [orderStatusEnum], hpay, by simp [paymentStatusEnum]⟩
  have hp1v : Product.validate
      { p with quantity := p.quantity - body.quantity,
               status := if p.quantity - body.quantity = 0 then "sold" else p.status,
               updatedAt := now } = true := by
    rw [productValidate_iff]
    refine ⟨hp0, by simpa using hq2, ?_⟩
    simp only []
    split
    · simp [productStatusEnum]
    · exact hps
  generalize createOrder s user body now = r at hdata hfo hp1 ⊢
  have hcok := cancelOrder_ok r.1 s.nextId now2 _ _ hfo rfl hov hp1 hp1v
  have hp2 := findById_after_cancelOrder r.1 s.nextId now2 _ _ hfo rfl hov hp1 hp1v
  simp only [] at hcok hp2
  have hp2v : Product.validate
      { p with quantity := p.quantity - body.quantity + body.quantity, status := "active",
               updatedAt := now2 } = true := by
    rw [productValidate_iff]
    exact ⟨hp0, by simpa using hpq, by simp [productStatusEnum]⟩
  have hlast := createOrder_ok (cancelOrder r.1 user s.nextId now2).1 user3
    ⟨body.product, p.quantity, pay3⟩ now3 _ hp2 hp2v hpay3 (le_trans hq1 hq2) (by simp)
  refine ⟨_, _, _, hdata, hp1, rfl, ?_, hp2, by simp, ?_⟩
  · rw [hcok]
  · rw [hlast]

/-- C15 (as amended): on a product that satisfies the product schema, with a
natural-number stock S ≤ 2^53, in a store where the next `_id` is not yet used by an
order: createOrder for a natural-number q with 1 ≤ q ≤ S leaves stock S - q;
cancelOrder of the new order by the same buyer is answered 200 and leaves the stock
exactly S; a following createOrder for the whole quantity S is answered 201. -/
theorem createOrder_cancel_restores_stock (s : Store) (user user3 : ObjectId)
    (body : OrderBody) (pay3 : String) (now now2 now3 : Nat) (p : Product) (S q : ℕ)
    (hfind : Product.findById s body.product = some p) (hvalid : p.validate = true)
    (hpay : body.paymentMethod ∈ paymentMethodEnum) (hpay3 : pay3 ∈ paymentMethodEnum)
    (hS : p.quantity = S) (hq : body.quantity = q)
    (hq1 : 1 ≤ q) (hq2 : q ≤ S) (_hS53 : S ≤ 2 ^ 53)
    (hfresh : Order.findById s s.nextId = none) :
    ∃ o p1 p2,
      (createOrder s user body now).2.data = some o ∧
      Product.findById (createOrder s user body now).1 body.product = some p1 ∧
      p1.quantity = ((S - q : ℕ) : ℚ) ∧
      (cancelOrder (createOrder s user body now).1 user o.id now2).2.status = 200 ∧
      Product.findById (cancelOrder (createOrder s user body now).1 user o.id now2).1
        body.product = some p2 ∧
      p2.quantity = S ∧
      (createOrder (cancelOrder (createOrder s user body now).1 user o.id now2).1 user3
        ⟨body.product, S, pay3⟩ now3).2.status = 201 := by
  have hq1r : (1 : ℚ) ≤ body.quantity := by rw [hq]; exact_mod_cast hq1
  have hq2r : body.quantity ≤ p.quantity := by rw [hq, hS]; exact_mod_cast hq2
  obtain ⟨o, p1, p2, h1, h2, h3, h4, h5, h6, h7⟩ :=
    createOrder_cancel_createOrder s user user3 body pay3 now now2 now3 p hfind hvalid hpay
      hpay3 hq1r hq2r hfresh
  refine ⟨o, p1, p2, h1, h2, ?_, h4, h5, ?_, ?_⟩
  · rw [h3, hS, hq, Nat.cast_sub hq2]
  · rw [h6, hS]
  · rw [← hS]; exact h7

/-- C15 (as amended) at the spec's input: stock 10, order 4, cancel, order 10. -/
theorem createOrder_cancel_restores_stock_witness :
    ∃ o p1 p2,
      (createOrder raceStore 7 ⟨0, 4, "cash"⟩ 1).2.data = some o ∧
      Product.findById (createOrder raceStore 7 ⟨0, 4, "cash"⟩ 1).1 0 = some p1 ∧
      p1.quantity = 6 ∧
      (cancelOrder (createOrder raceStore 7 ⟨0, 4, "cash"⟩ 1).1 7 o.id 2).2.status = 200 ∧
      Product.findById (cancelOrder (createOrder raceStore 7 ⟨0, 4, "cash"⟩ 1).1 7 o.id 2).1 0 =
        some p2 ∧
      p2.quantity = 10 ∧
      (createOrder (cancelOrder (createOrder raceStore 7 ⟨0, 4, "cash"⟩ 1).1 7 o.id 2).1 8
        ⟨0, 10, "upi"⟩ 3).2.status = 201 := by
  obtain ⟨o, p1, p2, h1, h2, h3, h4, h5, h6, h7⟩ :=
    createOrder_cancel_restores_stock raceStore 7 8 ⟨0, 4, "cash"⟩ "upi" 1 2 3
      { id := 0, farmer := 1, price := 5, quantity := 10, status := "active",
        createdAt := 0, updatedAt := 0 } 10 4
      rfl (by decide) (by decide) (by decide) (by norm_num) (by norm_num) (by norm_num)
      (by norm_num) (by norm_num) rfl
  refine ⟨o, p1, p2, h1, h2, by rw [h3]; norm_num, h4, h5, by rw [h6]; norm_num, ?_⟩
  have h10 : ((10 : ℕ) : ℚ) = 10 := by norm_num
  rw [h10] at h7
  exact h7

/-- C15 (counterexample): product 0 has stock 100 and, after the farmer's
`{ "$inc": { "price": -20 } }`, price -10. The order for 4 units is answered 500 and
inserts nothing, so there is no order to cancel (404), and the following order for
the whole stock of 100 is answered 500 as well. -/
theorem createOrder_cancel_fails_on_negative_price :
    (Product.findById negativePriceStore 0).map (fun p => (p.price, p.quantity)) =
        some (-10, 100) ∧
      createOrder negativePriceStore 7 ⟨0, 4, "cash"⟩ 2 = (negativePriceStore, serverError) ∧
      (cancelOrder negativePriceStore 7 negativePriceStore.nextId 3).2.status = 404 ∧
      (createOrder negativePriceStore 7 ⟨0, 100, "cash"⟩ 4).2.status = 500 := by
  refine ⟨?_, ?_, ?_, ?_⟩ <;>
  norm_num +decide [negativePriceStore, negativePriceRequests, runAll, handle, emptyStore,
    createProduct, Product.create, updateProduct, Product.findByIdAndUpdate,
    ProductUpdate.validate, ProductUpdate.conflict, ProductUpdate.apply, NumericOp.apply,
    createOrder, cancelOrder, Product.findById, Order.findById, Order.create,
    Order.validate, Product.validate, serverError, paymentMethodEnum, orderStatusEnum,
    paymentStatusEnum, productStatusEnum]


/-! ## Delivery fields, products under updateOrderStatus, farmer dashboard -/

/-- C16: after a successful (200) updateOrderStatus by the order's farmer the stored order
has the requested status; if the requested status is `delivered`, deliveredAt is the
current time and paymentStatus is completed, otherwise both are as before; buyer,
farmer, product, quantity, unit price and totalAmount are as before in every case. -/
theorem updateOrderStatus_delivery_fields (s : Store) (id : ObjectId)
    (status : String) (now : Nat) (o : Order)
    (hfind : Order.findById s id = some o)
    (hok : (updateOrderStatus s o.farmer id (some status) now).2.status = 200) :
    ∃ o1,
      Order.findById (updateOrderStatus s o.farmer id (some status) now).1 id = some o1 ∧
      (updateOrderStatus s o.farmer id (some status) now).2.data = some o1 ∧
      o1.status = status ∧
      (status = "delivered" →
        o1.deliveredAt = some now ∧ o1.paymentStatus = "completed") ∧
      (status ≠ "delivered" →
        o1.deliveredAt = o.deliveredAt ∧ o1.paymentStatus = o.paymentStatus) ∧
      o1.buyer = o.buyer ∧ o1.farmer = o.farmer ∧ o1.product = o.product ∧
      o1.quantity = o.quantity ∧ o1.price = o.price ∧ o1.totalAmount = o.totalAmount := by
  cases hv : Order.validate
      { o with status := (some status).getD "pending",
               paymentStatus :=
                 if some status = some "delivered" then "completed" else o.paymentStatus,
               deliveredAt :=
                 if some status = some "delivered" then some now else o.deliveredAt } with
  | false =>
    rw [updateOrderStatus_fail s id (some status) now o hfind hv] at hok
    simp [serverError] at hok
  | true =>
    rw [updateOrderStatus_ok s id (some status) now o hfind hv]
    refine ⟨_, findById_map_patch_self s id o _ hfind rfl, rfl, rfl, ?_, ?_,
      rfl, rfl, rfl, rfl, rfl, rfl⟩
    · intro hd
      simp [hd]
    · intro hd
      simp [hd]

/-- C16 on the end-to-end store: the farmer first accepts order 1 (nothing but the
status changes), then delivers it at time 9. -/
theorem updateOrderStatus_delivery_fields_witness :
    (∃ o1, Order.findById (updateOrderStatus pendingStore 1 1 (some "accepted") 8).1 1 =
        some o1 ∧
      o1.status = "accepted" ∧ o1.deliveredAt = none ∧ o1.paymentStatus = "pending") ∧
    (∃ o1, Order.findById (updateOrderStatus pendingStore 1 1 (some "delivered") 9).1 1 =
        some o1 ∧
      o1.status = "delivered" ∧ o1.deliveredAt = some 9 ∧ o1.paymentStatus = "completed") := by
  have ha : (updateOrderStatus pendingStore 1 1 (some "accepted") 8).2.status = 200 := by
    norm_num +decide [updateOrderStatus, pendingStore, Order.findById, Order.save,
      Order.validate, paymentMethodEnum, orderStatusEnum, paymentStatusEnum]
  have hd : (updateOrderStatus pendingStore 1 1 (some "delivered") 9).2.status = 200 := by
    norm_num +decide [updateOrderStatus, pendingStore, Order.findById, Order.save,
      Order.validate, paymentMethodEnum, orderStatusEnum, paymentStatusEnum]
  obtain ⟨o1, h1, -, h3, -, h5, -⟩ := updateOrderStatus_delivery_fields pendingStore 1
    "accepted" 8
    { id := 1, buyer := 7, farmer := 1, product := 0, quantity := 30, price := 10,
      totalAmount := 300, status := "pending", paymentMethod := "cash",
      paymentStatus := "pending", createdAt := 5, updatedAt := 5, deliveredAt := none }
    rfl ha
  obtain ⟨o2, k1, -, k3, k4, -⟩ := updateOrderStatus_delivery_fields pendingStore 1
    "delivered" 9
    { id := 1, buyer := 7, farmer := 1, product := 0, quantity := 30, price := 10,
      totalAmount := 300, status := "pending", paymentMethod := "cash",
      paymentStatus := "pending", createdAt := 5, updatedAt := 5, deliveredAt := none }
    rfl hd
  exact ⟨⟨o1, h1, h3, (h5 (by decide)).1, (h5 (by decide)).2⟩,
    ⟨o2, k1, k3, (k4 rfl).1, (k4 rfl).2⟩⟩

/-- C18: updateOrderStatus leaves the products collection as it is, for every store,
user, order id and requested status (`rejected` included): no product's stock or
status changes, so a rejected order's quantity is not returned to the stock. -/
theorem updateOrderStatus_keeps_products (s : Store) (user id : ObjectId)
    (status : Option String) (now : Nat) :
    (updateOrderStatus s user id status now).1.products = s.products ∧
      ∀ i, Product.findById (updateOrderStatus s user id status now).1 i =
        Product.findById s i := by
  have h : (updateOrderStatus s user id status now).1.products = s.products := by
    unfold updateOrderStatus
    split
    · rfl
    · split
      · rfl
      · simp only []
        split
        · rfl
        · rename_i s1 d hsave
          exact (orderSave_findById _ _ _ _ _ _ hsave 0).2.1
  exact ⟨h, fun i => by unfold Product.findById; rw [h]⟩



theorem createdAt_ge_trans (a b c : Order)
    (h1 : decide (b.createdAt ≤ a.createdAt) = true)
    (h2 : decide (c.createdAt ≤ b.createdAt) = true) :
    decide (c.createdAt ≤ a.createdAt) = true := by
  simp only [decide_eq_true_eq] at *
  exact le_trans h2 h1

theorem createdAt_ge_total (a b : Order) :
    (decide (b.createdAt ≤ a.createdAt) || decide (a.createdAt ≤ b.createdAt)) = true := by
  simp only [Bool.or_eq_true, decide_eq_true_eq]
  exact le_total _ _

/-- C17: getFarmerStats changes nothing in the store and answers 200 with: the number of
the farmer's active products, the number of the farmer's pending orders, the sum of
totalAmount over the farmer's delivered or accepted orders (0 when there are none),
and a list of the farmer's orders that has min(10, number of the farmer's orders)
entries, is in descending order of createdAt, and leaves out only orders that are
not newer than any order it contains. -/
theorem getFarmerStats_summary (s : Store) (user : ObjectId) :
    (getFarmerStats s user).1 = s ∧
    ∃ d, (getFarmerStats s user).2 =
        { status := 200, success := true, message := "", data := some d } ∧
      d.activeListings =
        s.products.countP (fun p => decide (p.farmer = user ∧ p.status = "active")) ∧
      d.pendingOrders =
        s.orders.countP (fun o => decide (o.farmer = user ∧ o.status = "pending")) ∧
      d.totalSales =
        ((s.orders.filter (fun o =>
            decide (o.farmer = user ∧ (o.status = "delivered" ∨ o.status = "accepted")))).map
          (fun o => o.totalAmount)).sum ∧
      d.recentActivity.length =
        min 10 (s.orders.countP (fun o => decide (o.farmer = user))) ∧
      d.recentActivity.Pairwise (fun a b => b.createdAt ≤ a.createdAt) ∧
      ∃ omitted,
        (d.recentActivity ++ omitted).Perm (s.orders.filter (fun o => decide (o.farmer = user))) ∧
        ∀ x ∈ omitted, ∀ y ∈ d.recentActivity, x.createdAt ≤ y.createdAt := by
  have hsorted := @List.sorted_mergeSort Order
    (fun a b : Order => decide (b.createdAt ≤ a.createdAt))
    createdAt_ge_trans createdAt_ge_total (s.orders.filter (fun o => decide (o.farmer = user)))
  have hperm := List.mergeSort_perm (s.orders.filter (fun o => decide (o.farmer = user)))
    (fun a b : Order => decide (b.createdAt ≤ a.createdAt))
  refine ⟨rfl, _, rfl, ?_, ?_, ?_, ?_, ?_, ?_⟩
  · simp only [List.countP_eq_length_filter, Bool.decide_and]
  · simp only [List.countP_eq_length_filter, Bool.decide_and]
  · have hpred : (fun o : Order =>
          decide (o.farmer = user) && decide (o.status ∈ ["delivered", "accepted"])) =
        (fun o : Order =>
          decide (o.farmer = user ∧ (o.status = "delivered" ∨ o.status = "accepted"))) := by
      funext o
      simp
    simp only [hpred]
    cases hm : s.orders.filter (fun o : Order =>
        decide (o.farmer = user ∧ (o.status = "delivered" ∨ o.status = "accepted"))) with
    | nil => simp
    | cons a l => simp
  · simp only [List.length_take, List.length_mergeSort, List.countP_eq_length_filter]
  · refine List.Pairwise.imp ?_ (hsorted.sublist (List.take_sublist _ _))
    intro a b hab
    simpa using hab
  · refine ⟨((s.orders.filter (fun o => decide (o.farmer = user))).mergeSort
      (fun a b => decide (b.createdAt ≤ a.createdAt))).drop 10, ?_, ?_⟩
    · rw [List.take_append_drop]
      exact hperm
    · intro x hx y hy
      have h := hsorted
      rw [← List.take_append_drop 10 ((s.orders.filter (fun o => decide (o.farmer = user))).mergeSort
        (fun a b => decide (b.createdAt ≤ a.createdAt))), List.pairwise_append] at h
      simpa using h.2.2 y hy x hx


/-- C17 on `dashboardStore` for farmer 1: one active listing, eight pending orders, four
delivered orders of 50, and ten of the twelve orders listed. -/
theorem getFarmerStats_summary_witness :
    ∃ d, (getFarmerStats dashboardStore 1).2.data = some d ∧
      d.activeListings = 1 ∧ d.pendingOrders = 8 ∧ d.totalSales = 200 ∧
      d.recentActivity.length = 10 := by
  obtain ⟨-, d, h1, h2, h3, h4, h5, -⟩ := getFarmerStats_summary dashboardStore 1
  refine ⟨d, by rw [h1], ?_, ?_, ?_, ?_⟩
  · rw [h2]; decide
  · rw [h3]; decide
  · rw [h4]
    have : (dashboardStore.orders.filter (fun o =>
        decide (o.farmer = 1 ∧ (o.status = "delivered" ∨ o.status = "accepted")))).map
          (fun o => o.totalAmount) = [50, 50, 50, 50] := by decide
    rw [this]
    norm_num
  · rw [h5]; decide

end Farm2Mandi
